import Mathlib

/-!
# InboxBot: a shallow embedding of `enhanced-telegram-bot.js`

The bot relays messages between end users and a list of administrators and can
answer users through a completion service.  This file embeds the parts of the
program that its specification talks about:

* JavaScript strings are sequences of UTF-16 code units (`JsString`), so that
  `length`, `substring`, `split`, `trim` and the regular expression
  `/User ID: (\d+)/` mean what they mean in the source;
* the three JSON documents and the in-memory conversation map form `BotState`;
* every platform call a handler attempts is recorded in a trace of `Event`s; an
  oracle `fails : Oracle` says which calls throw, and the embedding follows
  the `try`/`catch` structure of the source;
* the media registrations `bot.on(...)` form a chain of middlewares in which a handler
  that does not call `next()` ends the handling of the update.

Definitions come first, theorems after them.
-/

namespace InboxBot

/-! ## JavaScript strings -/

/-- A JavaScript string, as its sequence of UTF-16 code units. -/
abbrev JsString := List Nat

/-- UTF-16 encoding of one Unicode scalar value. -/
def utf16 (c : Char) : List Nat :=
  if c.toNat < 65536 then [c.toNat]
  else [55296 + (c.toNat - 65536) / 1024, 56320 + (c.toNat - 65536) % 1024]

/-- The JavaScript string denoted by a literal of the source. -/
def js (s : String) : JsString := s.toList.flatMap utf16

/-- JavaScript truthiness of a possibly `undefined` string: defined and non-empty. -/
def truthy : Option JsString → Bool
  | some (_ :: _) => true
  | _ => false

/-- The expression `a || d` for a possibly `undefined` string `a`. -/
def orElse (a : Option JsString) (d : JsString) : JsString :=
  match a with
  | some (c :: cs) => c :: cs
  | _ => d

/-- `String.prototype.startsWith`. -/
def startsWith (s p : JsString) : Bool := p.isPrefixOf s

/-- `String.prototype.includes`: `p` occurs somewhere in `s`. -/
def includes : JsString → JsString → Bool
  | [], p => p.isPrefixOf []
  | c :: cs, p => p.isPrefixOf (c :: cs) || includes cs p

/-- `String.prototype.split` with a one-unit separator: every occurrence of the
separator ends a piece, so consecutive separators give empty pieces. -/
def split (sep : Nat) : JsString → List JsString
  | [] => [[]]
  | c :: cs =>
    if c = sep then [] :: split sep cs
    else
      match split sep cs with
      | [] => [[c]]
      | w :: ws => (c :: w) :: ws

/-- The code units removed by `String.prototype.trim`: ECMAScript WhiteSpace and
LineTerminator. -/
def isWhiteSpace (c : Nat) : Bool :=
  c == 9 || c == 10 || c == 11 || c == 12 || c == 13 || c == 32 || c == 160 ||
  c == 5760 || (8192 ≤ c && c ≤ 8202) || c == 8232 || c == 8233 || c == 8239 ||
  c == 8287 || c == 12288 || c == 65279

/-- `String.prototype.trim`. -/
def trim (s : JsString) : JsString :=
  ((s.dropWhile isWhiteSpace).reverse.dropWhile isWhiteSpace).reverse

/-- The regular-expression class `\d` (no unicode flag): the units `0`..`9`. -/
def isDigit (c : Nat) : Bool := 48 ≤ c && c ≤ 57

/-- ASCII letters to lower case; the only strings whose `toLowerCase()` is
`on` or `off` are made of ASCII letters, on which this agrees with JavaScript. -/
def toLowerCase (s : JsString) : JsString :=
  s.map fun c => if 65 ≤ c ∧ c ≤ 90 then c + 32 else c

/-- Decimal digits of `n`, most significant first, in front of `acc`. -/
def digitsAux : Nat → Nat → List Nat → List Nat
  | 0, _, acc => acc
  | fuel + 1, n, acc =>
    if n < 10 then (48 + n) :: acc
    else digitsAux fuel (n / 10) ((48 + n % 10) :: acc)

/-- `ctx.from.id.toString()`: the decimal numeral of a Telegram user id (a
positive integer below `2^53`, for which `Number.prototype.toString` is the plain
decimal numeral). -/
def idToString (n : Nat) : JsString := digitsAux (n + 1) n []

/-! ## State -/

/-- A record of `users.json`.  The `joined` timestamp is written but never read
and is left out. -/
structure UserRecord where
  id : JsString
  username : Option JsString
  first_name : Option JsString
  aiEnabled : Option Bool
deriving DecidableEq, Repr

/-- The document `ai_settings.json`. -/
structure AISettings where
  enabled : Bool
  characterPrompt : JsString
deriving DecidableEq, Repr

/-- The `role` of a conversation turn. -/
inductive Role
  | user
  | model
deriving DecidableEq, Repr

/-- One element of a conversation history: `{ role, parts }`.  `parts` is the
text of the turn; it is `undefined` when the completion service returned a part
without a `text` field. -/
structure Turn where
  role : Role
  parts : Option JsString
deriving DecidableEq, Repr

/-- A JavaScript object used as a map from string keys to values. -/
abbrev Dict (β : Type) := List (JsString × β)

/-- The value `obj[k]`, `none` for `undefined`. -/
def Dict.get {β : Type} (d : Dict β) (k : JsString) : Option β :=
  match d with
  | [] => none
  | (k1, v) :: rest => if k1 = k then some v else Dict.get rest k

/-- The assignment `obj[k] = v`. -/
def Dict.set {β : Type} (d : Dict β) (k : JsString) (v : β) : Dict β :=
  match d with
  | [] => [(k, v)]
  | (k1, v1) :: rest => if k1 = k then (k, v) :: rest else (k1, v1) :: Dict.set rest k v

/-- The statement `delete obj[k]`. -/
def Dict.erase {β : Type} (d : Dict β) (k : JsString) : Dict β :=
  d.filter fun kv => !(kv.1 == k)

/-- Everything the handlers read and write: the three JSON documents and the
in-memory map `chatHistories`. -/
structure BotState where
  admins : List JsString
  users : Dict UserRecord
  aiSettings : AISettings
  chatHistories : Dict (List Turn)
deriving DecidableEq, Repr

/-- `isAdmin(userId)`: `admins.includes(userId.toString())`. -/
def isAdmin (admins : List JsString) (userId : Nat) : Bool :=
  admins.contains (idToString userId)

/-- `process.env.ADMIN_ID || admins[0]`; `none` is `undefined`. -/
def primaryAdminId (env : Option JsString) (admins : List JsString) : Option JsString :=
  match env with
  | some (c :: cs) => some (c :: cs)
  | _ => admins.head?

/-- The admin list contains its primary admin. -/
def containsPrimary (env : Option JsString) (admins : List JsString) : Bool :=
  match primaryAdminId env admins with
  | some p => admins.contains p
  | none => false

/-- `isAIEnabled(userId)`. -/
def isAIEnabled (s : BotState) (userId : JsString) : Bool :=
  match Dict.get s.users userId with
  | some r =>
    match r.aiEnabled with
    | some b => b
    | none => s.aiSettings.enabled
  | none => s.aiSettings.enabled

/-! ## Admin commands -/

/-- The state after a command handler together with the text it replies. -/
structure CmdResult where
  state : BotState
  reply : JsString
deriving DecidableEq, Repr

/-- The texts for which the first `bot.use` middleware demands an admin. -/
def adminCommands : List JsString :=
  [js "/addadmin", js "/removeadmin", js "/aimode", js "/setcharacter", js "/listadmins"]

/-- The first `bot.use` middleware: `true` when it calls `next()`, `false` when
it replies `You are not authorized to use this command.` instead. -/
def middleware (admins : List JsString) (userId : Nat) (text : JsString) : Bool :=
  if text = [] then true
  else if adminCommands.any (startsWith text) then isAdmin admins userId
  else true

/-- The handler of `bot.command('addadmin')`. -/
def addadmin (env : Option JsString) (s : BotState) (sender : Nat) (text : JsString) :
    CmdResult :=
  let args := split 32 text
  if args.length ≠ 2 then ⟨s, js "Usage: /addadmin [user_id]"⟩
  else
    let userId := idToString sender
    let newAdminId := trim (args.getD 1 [])
    let admins := s.admins
    if some userId ≠ primaryAdminId env admins then
      ⟨s, js "Only the primary admin (bot owner) can add new admins."⟩
    else if admins.contains newAdminId then ⟨s, js "This user is already an admin."⟩
    else
      ⟨{ s with admins := admins ++ [newAdminId] },
        js "User " ++ newAdminId ++ js " has been added as an admin."⟩

/-- The handler of `bot.command('removeadmin')`. -/
def removeadmin (env : Option JsString) (s : BotState) (sender : Nat) (text : JsString) :
    CmdResult :=
  let args := split 32 text
  if args.length ≠ 2 then ⟨s, js "Usage: /removeadmin [user_id]"⟩
  else
    let userId := idToString sender
    let adminIdToRemove := trim (args.getD 1 [])
    let admins := s.admins
    if some adminIdToRemove = primaryAdminId env admins then
      ⟨s, js "Cannot remove the primary admin (bot owner)."⟩
    else if some userId ≠ primaryAdminId env admins then
      ⟨s, js "Only the primary admin (bot owner) can remove admins."⟩
    else if admins.length = 1 ∧ admins.head? = some adminIdToRemove then
      ⟨s, js "Cannot remove the last admin."⟩
    else
      let updatedAdmins := admins.filter fun id => id ≠ adminIdToRemove
      if updatedAdmins.length = admins.length then ⟨s, js "Admin not found."⟩
      else
        ⟨{ s with admins := updatedAdmins },
          js "User " ++ adminIdToRemove ++ js " has been removed from admins."⟩

/-- The handler of `bot.command('aimode')`. -/
def aimode (s : BotState) (sender : Nat) (text : JsString) : CmdResult :=
  let args := split 32 text
  if !isAdmin s.admins sender then ⟨s, js "You are not authorized to use this command."⟩
  else if args.length ≠ 2 ∨ ¬ [js "on", js "off"].contains (toLowerCase (args.getD 1 [])) then
    ⟨s, js "Usage: /aimode [on/off]"⟩
  else
    let enabled := toLowerCase (args.getD 1 []) = js "on"
    ⟨{ s with aiSettings := { s.aiSettings with enabled := enabled } },
      js "AI mode has been turned " ++ (if enabled then js "ON" else js "OFF") ++ js " globally."⟩

/-- The admin-management commands. -/
inductive AdminCmd
  | add
  | remove
deriving DecidableEq, Repr

/-- One update carrying an admin-management command, as the bot processes it:
the middleware first, then the command handler. -/
def runAdminCmd (env : Option JsString) (s : BotState) (c : AdminCmd) (sender : Nat)
    (text : JsString) : CmdResult :=
  if middleware s.admins sender text then
    match c with
    | .add => addadmin env s sender text
    | .remove => removeadmin env s sender text
  else ⟨s, js "You are not authorized to use this command."⟩

/-- A sequence of admin-management updates, processed one after the other. -/
def runAdminCmds (env : Option JsString) (s : BotState) :
    List (AdminCmd × Nat × JsString) → BotState
  | [] => s
  | (c, sender, text) :: rest => runAdminCmds env (runAdminCmd env s c sender text).state rest

/-! ## Updates, platform calls and traces -/

/-- The sender of an update, `ctx.from`. -/
structure From where
  id : Nat
  first_name : Option JsString
  username : Option JsString
deriving DecidableEq, Repr

/-- The message an update replies to, `ctx.message.reply_to_message`. -/
structure RepliedMessage where
  text : Option JsString
deriving DecidableEq, Repr

/-- The fields of `ctx.message` the handlers read.  A media field holds the
`file_id` of the object; `photo` holds the `file_id`s of the array of sizes. -/
structure Message where
  text : Option JsString
  caption : Option JsString
  photo : Option (List JsString)
  video : Option JsString
  document : Option JsString
  audio : Option JsString
  voice : Option JsString
  sticker : Option JsString
  reply_to_message : Option RepliedMessage
deriving DecidableEq, Repr

/-- The context of an update: `ctx.from` (here `sender`) and `ctx.message`. -/
structure Ctx where
  sender : From
  message : Message
deriving DecidableEq, Repr

/-- The methods of `bot.telegram` the program calls. -/
inductive Api
  | sendMessage
  | sendPhoto
  | sendVideo
  | sendDocument
  | sendAudio
  | sendVoice
  | sendSticker
deriving DecidableEq, Repr

/-- A call to the chat platform: `bot.telegram.<api>(chatId, payload, { caption })`,
`ctx.reply(text)` or `ctx.replyWithChatAction(action)`. -/
inductive Call
  | telegram (api : Api) (chatId : JsString) (payload : JsString) (caption : Option JsString)
  | reply (text : JsString)
  | replyWithChatAction (action : JsString)
deriving DecidableEq, Repr

/-- What a handler did, in order: the platform calls it attempted, each with
whether it succeeded, and the lines it logged with `console.error`. -/
inductive Event
  | call (c : Call) (ok : Bool)
  | log (msg : JsString)
deriving DecidableEq, Repr

/-- Which platform calls throw: `none` when the call succeeds, `some msg` when
it throws an error whose `message` is `msg`. -/
abbrev Oracle := Call → Option JsString

/-- The run of a piece of code: its trace and, when it threw, the message of
the error that escaped it. -/
structure Outcome where
  trace : List Event
  error : Option JsString
deriving DecidableEq, Repr

/-- The run that does nothing. -/
def Outcome.skip : Outcome := ⟨[], none⟩

/-- A `throw` (here always a `TypeError` raised by reading a property of
`undefined`). -/
def Outcome.throw (msg : JsString) : Outcome := ⟨[], some msg⟩

/-- A line written with `console.error`. -/
def logged (msg : JsString) : Outcome := ⟨[Event.log msg], none⟩

/-- An awaited platform call. -/
def perform (fails : Oracle) (c : Call) : Outcome :=
  ⟨[Event.call c (fails c).isNone], fails c⟩

/-- Sequencing `a; b`: `b` runs only when `a` did not throw. -/
def Outcome.andThen (a b : Outcome) : Outcome :=
  match a.error with
  | some e => ⟨a.trace, some e⟩
  | none => ⟨a.trace ++ b.trace, b.error⟩

/-- A call of an `async` function that is not awaited: what it does happens, a
rejection of its promise does not reach the caller.  The events of the call are listed
at the place of the call, in their own order; in the running program only the first of
them is sure to come before the next call of the caller, so nothing is to be read from
the position of the later ones among the events of the caller that follow. -/
def Outcome.detached (a : Outcome) : Outcome := ⟨a.trace, none⟩

/-- The statement `try { body } catch (error) { handler(error.message) }`. -/
def tryCatch (body : Outcome) (handler : JsString → Outcome) : Outcome :=
  match body.error with
  | some e => ⟨body.trace ++ (handler e).trace, (handler e).error⟩
  | none => body

/-- The loop `for (const x of xs) { body(x) }`: a throw that escapes the body
ends the loop. -/
def forOf {α : Type} (xs : List α) (body : α → Outcome) : Outcome :=
  match xs with
  | [] => Outcome.skip
  | x :: rest => (body x).andThen (forOf rest body)

/-- The chat ids of the `bot.telegram` calls attempted in a trace, in order. -/
def attemptedTargets : List Event → List JsString
  | [] => []
  | Event.call (Call.telegram _ chatId _ _) _ :: rest => chatId :: attemptedTargets rest
  | _ :: rest => attemptedTargets rest

/-- The chat ids of the `bot.telegram` calls of a trace that succeeded. -/
def deliveredTargets : List Event → List JsString
  | [] => []
  | Event.call (Call.telegram _ chatId _ _) true :: rest => chatId :: deliveredTargets rest
  | _ :: rest => deliveredTargets rest

/-- The texts of the `ctx.reply` calls of a trace that succeeded: the messages
the sender of the update receives. -/
def repliesSent : List Event → List JsString
  | [] => []
  | Event.call (Call.reply text) true :: rest => text :: repliesSent rest
  | _ :: rest => repliesSent rest

/-! ## Forwarding text to the admins, and reading the footer back -/

/-- The text `forwardTextToAdmins` sends to each admin. -/
def forwardText (ctx : Ctx) : JsString :=
  js "Message from " ++ orElse ctx.sender.first_name (js "Unknown") ++ js " (@" ++
    orElse ctx.sender.username (js "no_username") ++ js "):\n\n" ++
    ctx.message.text.getD (js "undefined") ++ js "\n\nUser ID: " ++ idToString ctx.sender.id

/-- The function `forwardTextToAdmins(ctx)`. -/
def forwardTextToAdmins (fails : Oracle) (s : BotState) (ctx : Ctx) : Outcome :=
  forOf s.admins fun adminId =>
    tryCatch (perform fails (Call.telegram Api.sendMessage adminId (forwardText ctx) none))
      fun _ => logged (js "Failed to forward message to admin " ++ adminId ++ js ":")

/-- The capture group of the first match of `/User ID: (\d+)/` in `s`: at the
leftmost position where the label is followed by a digit, the longest run of
digits after the label. -/
def matchUserId : JsString → Option JsString
  | [] => none
  | c :: cs =>
    if (js "User ID: ").isPrefixOf (c :: cs) ∧ ((c :: cs).drop 9).head?.any isDigit then
      some (((c :: cs).drop 9).takeWhile isDigit)
    else matchUserId cs

/-- The target of an admin reply, as both reply handlers compute it from the
replied-to message: its text must be truthy, include `User ID:`, and match the
regular expression with a truthy capture. -/
def replyTarget (orig : RepliedMessage) : Option JsString :=
  if truthy orig.text ∧ includes (orig.text.getD []) (js "User ID:") then
    match matchUserId (orig.text.getD []) with
    | some (d :: ds) => some (d :: ds)
    | _ => none
  else none

/-! ## The AI responder -/

/-- One element of `content.parts` in a completion response. -/
structure Part where
  text : Option JsString
deriving DecidableEq, Repr

/-- The `content` of a candidate. -/
structure Content where
  parts : Option (List Part)
deriving DecidableEq, Repr

/-- One element of `data.candidates`. -/
structure Candidate where
  content : Option Content
deriving DecidableEq, Repr

/-- The body `response.data` of a completion response. -/
structure ResponseData where
  candidates : Option (List Candidate)
deriving DecidableEq, Repr

/-- What `await axios.post(...)` does: it throws (transport failure, error
status) or it returns a response whose fields may each be missing. -/
inductive ApiOutcome
  | throws (msg : JsString)
  | response (data : Option ResponseData)
deriving DecidableEq, Repr

/-- The value of `response.data.candidates[0].content.parts` when the guard
`response.data && response.data.candidates && response.data.candidates[0] &&
response.data.candidates[0].content && response.data.candidates[0].content.parts`
holds, `none` when it does not. -/
def responseParts (data : Option ResponseData) : Option (List Part) :=
  match data with
  | none => none
  | some d =>
    match d.candidates with
    | none => none
    | some cs =>
      match cs.head? with
      | none => none
      | some c =>
        match c.content with
        | none => none
        | some co => co.parts

/-- The reply of `generateAIResponse` to a response that fails the guard. -/
def troubleText : JsString :=
  js "I'm having trouble processing your request right now. Please try again later."

/-- The reply of `generateAIResponse` in its `catch` block. -/
def sorryText : JsString :=
  js "Sorry, I encountered an error while generating a response. Please try again later."

/-- `s.substring(i, j)` for `i ≤ j`. -/
def substring (s : JsString) (i j : Nat) : JsString := (s.drop i).take (j - i)

/-- `xs.slice(-n)`: the last `n` elements. -/
def sliceLast {α : Type} (n : Nat) (xs : List α) : List α := xs.drop (xs.length - n)

/-- The loop `for (let i = i0; i < s.length; i += size) await ctx.reply(s.substring(i, i + size))`,
with `fuel` bounding the number of iterations. -/
def chunkLoop (fails : Oracle) (size : Nat) (s : JsString) : Nat → Nat → Outcome
  | 0, _ => Outcome.skip
  | fuel + 1, i =>
    if i < s.length then
      (perform fails (Call.reply (substring s i (i + size)))).andThen
        (chunkLoop fails size s fuel (i + size))
    else Outcome.skip

/-- The delivery of the response text: in pieces of 4096 units when it is longer
than that, in one reply otherwise.  The loop runs at most `length` times. -/
def sendResponse (fails : Oracle) (aiResponse : JsString) : Outcome :=
  if aiResponse.length > 4096 then chunkLoop fails 4096 aiResponse aiResponse.length 0
  else perform fails (Call.reply aiResponse)

/-- The history and the run of the `try` block of `generateAIResponse`, from the
history `h1` that already holds the user turn. -/
def aiTryBlock (fails : Oracle) (api : ApiOutcome) (s : BotState) (ctx : Ctx)
    (h1 : List Turn) : List Turn × Outcome :=
  let fwd := (forwardTextToAdmins fails s ctx).detached
  let typing := perform fails (Call.replyWithChatAction (js "typing"))
  match typing.error with
  | some e => (h1, ⟨fwd.trace ++ typing.trace, some e⟩)
  | none =>
    match api with
    | ApiOutcome.throws msg => (h1, ⟨fwd.trace ++ typing.trace, some msg⟩)
    | ApiOutcome.response data =>
      match responseParts data with
      | none =>
        let r := perform fails (Call.reply troubleText)
        (h1, ⟨fwd.trace ++ typing.trace ++ r.trace, r.error⟩)
      | some [] => (h1, ⟨fwd.trace ++ typing.trace, some (js "TypeError")⟩)
      | some (p :: _) =>
        let h2 := h1 ++ [⟨Role.model, p.text⟩]
        let h3 := if h2.length > 20 then sliceLast 20 h2 else h2
        match p.text with
        | none => (h3, ⟨fwd.trace ++ typing.trace, some (js "TypeError")⟩)
        | some aiResponse =>
          let r := sendResponse fails aiResponse
          (h3, ⟨fwd.trace ++ typing.trace ++ r.trace, r.error⟩)

/-- The function `generateAIResponse(ctx)` for the outcome `api` of the call to
the completion service: the state it leaves and its run. -/
def generateAIResponse (fails : Oracle) (api : ApiOutcome) (s : BotState) (ctx : Ctx) :
    BotState × Outcome :=
  let userId := idToString ctx.sender.id
  let h0 := (Dict.get s.chatHistories userId).getD []
  let h1 := h0 ++ [⟨Role.user, ctx.message.text⟩]
  let body := aiTryBlock fails api s ctx h1
  ({ s with chatHistories := Dict.set s.chatHistories userId body.1 },
    tryCatch body.2 fun _ =>
      (logged (js "Error generating AI response:")).andThen
        (perform fails (Call.reply sorryText)))

/-- The conversation history of a user, empty when there is none. -/
def historyOf (s : BotState) (userId : Nat) : List Turn :=
  (Dict.get s.chatHistories (idToString userId)).getD []

/-- A sequence of calls of `generateAIResponse`, each with its own update and
outcome of the completion service. -/
def generateAIResponses (fails : Oracle) (s : BotState) : List (ApiOutcome × Ctx) → BotState
  | [] => s
  | (api, ctx) :: rest => generateAIResponses fails (generateAIResponse fails api s ctx).1 rest

/-! ## The text handler and the media forwarder -/

/-- The registration `if (!users[userId]) { users[userId] = {...}; saveUsers(users) }`. -/
def registerUser (s : BotState) (ctx : Ctx) : BotState :=
  let userId := idToString ctx.sender.id
  match Dict.get s.users userId with
  | some _ => s
  | none =>
    let record : UserRecord :=
      { id := userId
        username := some (orElse ctx.sender.username (js "unknown"))
        first_name := some (orElse ctx.sender.first_name (js "unknown"))
        aiEnabled := some true }
    { s with users := Dict.set s.users userId record }

/-- The handler of `bot.on('text')`. -/
def onText (fails : Oracle) (api : ApiOutcome) (s : BotState) (ctx : Ctx) : BotState × Outcome :=
  let userId := idToString ctx.sender.id
  match isAdmin s.admins ctx.sender.id, ctx.message.reply_to_message with
  | true, some originalMessage =>
    match replyTarget originalMessage with
    | some targetUserId =>
      let replyText := ctx.message.text.getD (js "undefined")
      let send := perform fails (Call.telegram Api.sendMessage targetUserId replyText none)
      match send.error with
      | none => (s, send.andThen (perform fails (Call.reply (js "Message sent to user."))))
      | some msg =>
        (s, Outcome.andThen ⟨send.trace, none⟩
          (perform fails (Call.reply (js "Failed to send message: " ++ msg))))
    | none =>
      (s, perform fails (Call.reply
        (js "Cannot determine the target user. Please reply to a forwarded user message.")))
  | true, none => (s, Outcome.skip)
  | false, _ =>
    let s1 := registerUser s ctx
    if isAIEnabled s1 userId then generateAIResponse fails api s1 ctx
    else
      (s1, (forwardTextToAdmins fails s1 ctx).detached.andThen
        (perform fails (Call.reply (js "Your message has been forwarded to our team."))))

/-- The text after `Photo from`, `Video from`, ... in a forwarded caption:
the sender and, when `caption` is given, the caption (`No caption` when the
update has none). -/
def mediaCaption (kind : JsString) (withCaption : Bool) (ctx : Ctx) : JsString :=
  kind ++ js " from " ++ orElse ctx.sender.first_name (js "Unknown") ++ js " (@" ++
    orElse ctx.sender.username (js "no_username") ++
    (if withCaption then js "):\n\n" ++ orElse ctx.message.caption (js "No caption")
     else js ")") ++
    js "\n\nUser ID: " ++ idToString ctx.sender.id

/-- The body of the `try` block in the admin loop of `handleForwardToAdmins`. -/
def forwardMediaTo (fails : Oracle) (ctx : Ctx) (adminId : JsString) : Outcome :=
  let m := ctx.message
  match m.photo, m.video, m.document, m.audio, m.voice, m.sticker with
  | some sizes, _, _, _, _, _ =>
    match sizes.getLast? with
    | none => Outcome.throw (js "TypeError")
    | some fileId =>
      perform fails (Call.telegram Api.sendPhoto adminId fileId
        (some (mediaCaption (js "Photo") true ctx)))
  | none, some fileId, _, _, _, _ =>
    perform fails (Call.telegram Api.sendVideo adminId fileId
      (some (mediaCaption (js "Video") true ctx)))
  | none, none, some fileId, _, _, _ =>
    perform fails (Call.telegram Api.sendDocument adminId fileId
      (some (mediaCaption (js "Document") true ctx)))
  | none, none, none, some fileId, _, _ =>
    perform fails (Call.telegram Api.sendAudio adminId fileId
      (some (mediaCaption (js "Audio") true ctx)))
  | none, none, none, none, some fileId, _ =>
    perform fails (Call.telegram Api.sendVoice adminId fileId
      (some (mediaCaption (js "Voice message") false ctx)))
  | none, none, none, none, none, some fileId =>
    (perform fails (Call.telegram Api.sendSticker adminId fileId none)).andThen
      (perform fails (Call.telegram Api.sendMessage adminId
        (mediaCaption (js "Sticker") false ctx) none))
  | none, none, none, none, none, none => Outcome.skip

/-- The admin loop of `handleForwardToAdmins`. -/
def forwardMediaToAdmins (fails : Oracle) (s : BotState) (ctx : Ctx) : Outcome :=
  forOf s.admins fun adminId =>
    tryCatch (forwardMediaTo fails ctx adminId)
      fun _ => logged (js "Failed to forward media to admin " ++ adminId ++ js ":")

/-- The function `handleForwardToAdmins(ctx)`. -/
def handleForwardToAdmins (fails : Oracle) (api : ApiOutcome) (s : BotState) (ctx : Ctx) :
    BotState × Outcome :=
  let userId := idToString ctx.sender.id
  if isAdmin s.admins ctx.sender.id then (s, Outcome.skip)
  else
    let s1 := registerUser s ctx
    if isAIEnabled s1 userId ∧ truthy ctx.message.text then generateAIResponse fails api s1 ctx
    else
      (s1, (forwardMediaToAdmins fails s1 ctx).andThen
        (if !isAIEnabled s1 userId then
          perform fails (Call.reply (js "Your message has been forwarded to our team."))
         else Outcome.skip))

/-! ## The `/start` and `/clear` commands -/

/-- The welcome of `/start` for the primary admin. -/
def primaryWelcome : JsString :=
  js "Welcome, Primary Admin (Bot Owner)! Available commands:\n/addadmin [user_id] - Add a new admin\n/removeadmin [user_id] - Remove an admin\n/listadmins - List all admin IDs\n/aimode [on/off] - Turn AI mode on or off globally\n/setcharacter [character description] - Set the AI character/personality\n\nReply to any forwarded message to respond to the user\n\nAs the primary admin, only you can add or remove other admins."

/-- The welcome of `/start` for the other admins. -/
def adminWelcome : JsString :=
  js "Welcome, Admin! Available commands:\n/listadmins - List all admin IDs\n/aimode [on/off] - Turn AI mode on or off globally\n/setcharacter [character description] - Set the AI character/personality\n\nReply to any forwarded message to respond to the user\n\nNote: Only the primary admin can add or remove other admins."

/-- The handler of `bot.start`. -/
def start (env : Option JsString) (fails : Oracle) (s : BotState) (ctx : Ctx) :
    BotState × Outcome :=
  let userId := idToString ctx.sender.id
  if isAdmin s.admins ctx.sender.id then
    if some userId = primaryAdminId env s.admins then
      (s, perform fails (Call.reply primaryWelcome))
    else (s, perform fails (Call.reply adminWelcome))
  else
    (registerUser s ctx, perform fails (Call.reply
      (js "Welcome to InstantTalkBot! Send any message to chat with me or use /help to see available commands.")))

/-- The handler of `bot.command('clear')`. -/
def clear (fails : Oracle) (s : BotState) (ctx : Ctx) : BotState × Outcome :=
  let userId := idToString ctx.sender.id
  match Dict.get s.chatHistories userId with
  | some _ =>
    ({ s with chatHistories := Dict.erase s.chatHistories userId },
      perform fails (Call.reply (js "Your conversation history with the AI has been cleared.")))
  | none => (s, perform fails (Call.reply (js "You have no conversation history to clear.")))

/-! ## Admin replies with media, and the chain of media handlers -/

/-- The media call in the `try` block of `handleAdminReply`: the first of photo,
video, document, audio, voice, sticker that the message has is sent to the target
with the caption of the message (none for a sticker). -/
def sendMediaTo (fails : Oracle) (ctx : Ctx) (targetUserId : JsString) : Outcome :=
  let m := ctx.message
  match m.photo, m.video, m.document, m.audio, m.voice, m.sticker with
  | some sizes, _, _, _, _, _ =>
    match sizes.getLast? with
    | none => Outcome.throw (js "TypeError")
    | some fileId => perform fails (Call.telegram Api.sendPhoto targetUserId fileId m.caption)
  | none, some fileId, _, _, _, _ =>
    perform fails (Call.telegram Api.sendVideo targetUserId fileId m.caption)
  | none, none, some fileId, _, _, _ =>
    perform fails (Call.telegram Api.sendDocument targetUserId fileId m.caption)
  | none, none, none, some fileId, _, _ =>
    perform fails (Call.telegram Api.sendAudio targetUserId fileId m.caption)
  | none, none, none, none, some fileId, _ =>
    perform fails (Call.telegram Api.sendVoice targetUserId fileId m.caption)
  | none, none, none, none, none, some fileId =>
    perform fails (Call.telegram Api.sendSticker targetUserId fileId none)
  | none, none, none, none, none, none => Outcome.skip

/-- The function `handleAdminReply(ctx)`; it writes no state. -/
def handleAdminReply (fails : Oracle) (s : BotState) (ctx : Ctx) : Outcome :=
  match isAdmin s.admins ctx.sender.id, ctx.message.reply_to_message with
  | true, some originalMessage =>
    match replyTarget originalMessage with
    | some targetUserId =>
      let send := sendMediaTo fails ctx targetUserId
      match send.error with
      | none => send.andThen (perform fails (Call.reply (js "Media sent to user.")))
      | some msg =>
        Outcome.andThen ⟨send.trace, none⟩
          (perform fails (Call.reply (js "Failed to send media: " ++ msg)))
    | none =>
      perform fails (Call.reply
        (js "Cannot determine the target user. Please reply to a forwarded user message."))
  | _, _ => Outcome.skip

/-- What one registered middleware does with an update: the state it leaves, its run,
and whether it called `next()`. -/
structure Step where
  state : BotState
  run : Outcome
  next : Bool

/-- A registered middleware `(ctx, next) => ...`. -/
abbrev Middleware := Oracle → ApiOutcome → BotState → Ctx → Step

/-- The registration `bot.on(types, (ctx) => fn(ctx))`, as Telegraf mounts it: an
update whose message has none of the fields is passed on with `next()`; otherwise `fn`
runs, and since it takes no `next` (unlike the `bot.use` middleware of the source, which
calls `next()` itself) the chain ends with it. -/
def botOn (hasType : Message → Bool)
    (fn : Oracle → ApiOutcome → BotState → Ctx → BotState × Outcome) : Middleware :=
  fun fails api s ctx =>
    if hasType ctx.message then ⟨(fn fails api s ctx).1, (fn fails api s ctx).2, false⟩
    else ⟨s, Outcome.skip, true⟩

/-- The composition of the registered middlewares (Telegraf's `Composer.compose`), in
registration order: the next one runs only when the one before called `next()` (and
did not throw). -/
def compose (ms : List Middleware) (fails : Oracle) (api : ApiOutcome) (s : BotState)
    (ctx : Ctx) : BotState × Outcome :=
  match ms with
  | [] => (s, Outcome.skip)
  | m :: rest =>
    if (m fails api s ctx).next ∧ (m fails api s ctx).run.error = none then
      ((compose rest fails api (m fails api s ctx).state ctx).1,
        (m fails api s ctx).run.andThen
          (compose rest fails api (m fails api s ctx).state ctx).2)
    else ((m fails api s ctx).state, (m fails api s ctx).run)

/-- The last registration, `bot.on(['photo', 'video', 'document', 'audio', 'sticker'], ...)`:
its handler calls `handleAdminReply` for an admin who replies to a message. -/
def adminReplyHandler (fails : Oracle) (_api : ApiOutcome) (s : BotState) (ctx : Ctx) :
    BotState × Outcome :=
  if isAdmin s.admins ctx.sender.id ∧ ctx.message.reply_to_message.isSome then
    (s, handleAdminReply fails s ctx)
  else (s, Outcome.skip)

/-- The media registrations of the bot, in source order.  The registrations before
them (the `bot.use` middleware, the commands and the text handler) act on messages
with a text only and pass every other update on. -/
def mediaMiddlewares : List Middleware :=
  [botOn (fun m => m.photo.isSome) handleForwardToAdmins,
    botOn (fun m => m.video.isSome) handleForwardToAdmins,
    botOn (fun m => m.document.isSome) handleForwardToAdmins,
    botOn (fun m => m.audio.isSome) handleForwardToAdmins,
    botOn (fun m => m.voice.isSome) handleForwardToAdmins,
    botOn (fun m => m.sticker.isSome) handleForwardToAdmins,
    botOn (fun m => m.photo.isSome || m.video.isSome || m.document.isSome ||
      m.audio.isSome || m.sticker.isSome) adminReplyHandler]

/-- What the bot does with an update that carries no text. -/
def handleMediaUpdate (fails : Oracle) (api : ApiOutcome) (s : BotState) (ctx : Ctx) :
    BotState × Outcome :=
  compose mediaMiddlewares fails api s ctx

/-! ## Notions used in the statements -/

/-- The effective AI-enabled value in the words of the specification: the explicit
override of the user when there is one, else the global flag. -/
def effectiveAIEnabled (s : BotState) (userId : JsString) : Bool :=
  ((Dict.get s.users userId).bind UserRecord.aiEnabled).getD s.aiSettings.enabled

/-- The update carries one of the six media kinds the forwarder handles: a photo
with at least one size, a video, a document, an audio, a voice message or a sticker. -/
def isMediaMessage (m : Message) : Bool :=
  match m.photo with
  | some sizes => !sizes.isEmpty
  | none =>
    m.video.isSome || m.document.isSome || m.audio.isSome || m.voice.isSome || m.sticker.isSome

/-- The call to the completion service failed: it threw, or its response fails the
guard on `data`, `candidates`, `candidates[0]`, `content` and `parts`, or its `parts`
array is empty. -/
def completionFailed : ApiOutcome → Bool
  | ApiOutcome.throws _ => true
  | ApiOutcome.response data =>
    match responseParts data with
    | none => true
    | some [] => true
    | some (_ :: _) => false

/-- The part of a run of the `try` block of `generateAIResponse` that precedes the
completion request: the forward to the admins and the chat action. -/
def aiPrelude (fails : Oracle) (s : BotState) (ctx : Ctx) : List Event :=
  (forwardTextToAdmins fails s ctx).detached.trace ++
    (perform fails (Call.replyWithChatAction (js "typing"))).trace

/-- The event is an attempted `bot.telegram` call. -/
def isTelegram : Event → Bool
  | Event.call (Call.telegram _ _ _ _) _ => true
  | _ => false

/-- The part of the forwarded copy in front of its footer: `forwardText` without
the final `User ID: <id>`. -/
def forwardBody (ctx : Ctx) : JsString :=
  js "Message from " ++ orElse ctx.sender.first_name (js "Unknown") ++ js " (@" ++
    orElse ctx.sender.username (js "no_username") ++ js "):\n\n" ++
    ctx.message.text.getD (js "undefined") ++ js "\n\n"

/-- The message has one of the fields `photo`, `video`, `document`, `audio`, `voice`,
`sticker`: one of the media registrations applies to it. -/
def isMediaKind (m : Message) : Bool :=
  m.photo.isSome || m.video.isSome || m.document.isSome || m.audio.isSome ||
    m.voice.isSome || m.sticker.isSome

/-- The record the router stores for a sender it has not seen before. -/
def registeredRecord (ctx : Ctx) : UserRecord :=
  { id := idToString ctx.sender.id
    username := some (orElse ctx.sender.username (js "unknown"))
    first_name := some (orElse ctx.sender.first_name (js "unknown"))
    aiEnabled := some true }

/-- The `bot.telegram` calls attempted in a trace, in order. -/
def telegramCalls : List Event → List Call
  | [] => []
  | Event.call (Call.telegram api chatId payload caption) _ :: rest =>
    Call.telegram api chatId payload caption :: telegramCalls rest
  | _ :: rest => telegramCalls rest

/-- The `bot.telegram` calls of a trace that succeeded, in order: what the chats
receive. -/
def deliveredCalls : List Event → List Call
  | [] => []
  | Event.call (Call.telegram api chatId payload caption) true :: rest =>
    Call.telegram api chatId payload caption :: deliveredCalls rest
  | _ :: rest => deliveredCalls rest

/-- The texts of the `ctx.reply` calls attempted in a trace, in order. -/
def attemptedReplies : List Event → List JsString
  | [] => []
  | Event.call (Call.reply text) _ :: rest => text :: attemptedReplies rest
  | _ :: rest => attemptedReplies rest

/-- Every call of the trace is marked as succeeded exactly when the oracle lets it
through. -/
def Recorded (fails : Oracle) (l : List Event) : Prop :=
  ∀ c ok, Event.call c ok ∈ l → ok = (fails c).isNone

/-! ## Concrete states and updates -/

/-- The oracle under which every platform call succeeds. -/
def noFailure : Oracle := fun _ => none

/-- The oracle under which exactly the calls to chat `2` throw. -/
def secondAdminFails : Oracle := fun c =>
  match c with
  | Call.telegram _ chatId _ _ => if chatId = js "2" then some (js "Forbidden") else none
  | _ => none

/-- A state whose only admin is `123456789`, the seed of a fresh installation. -/
def oneAdmin : BotState := ⟨[js "123456789"], [], ⟨true, js "You are InstantTalkBot."⟩, []⟩

/-- A state whose only admin is `1`, with no user and no history. -/
def oneAdminOne : BotState := ⟨[js "1"], [], ⟨true, js "You are InstantTalkBot."⟩, []⟩

/-- A state whose admin list is `["1", "2"]`, with no user and no history. -/
def twoAdmins : BotState := ⟨[js "1", js "2"], [], ⟨true, js "You are InstantTalkBot."⟩, []⟩

/-- A state with the three admins `1`, `2`, `3`, in which user `42` has switched
the AI off for themself. -/
def threeAdmins : BotState :=
  ⟨[js "1", js "2", js "3"],
    [(js "42", ⟨js "42", some (js "bob"), some (js "Bob"), some false⟩)],
    ⟨true, js "You are InstantTalkBot."⟩, []⟩

/-- The record of user `42`, with the explicit override `aiEnabled = true`. -/
def bobRecord : UserRecord := ⟨js "42", some (js "bob"), some (js "Bob"), some true⟩

/-- A state in which admin `1` is alone and user `42` has the record `bobRecord`. -/
def withOverride : BotState :=
  ⟨[js "1"], [(js "42", bobRecord)], ⟨true, js "You are InstantTalkBot."⟩, []⟩

/-- A text message with no reply target. -/
def textMessage (t : JsString) : Message :=
  { text := some t, caption := none, photo := none, video := none, document := none,
    audio := none, voice := none, sticker := none, reply_to_message := none }

/-- User `42` writes `hello`. -/
def hello : Ctx := ⟨⟨42, some (js "Bob"), some (js "bob")⟩, textMessage (js "hello")⟩

/-- User `42` writes a message that itself contains the footer label followed by
another id. -/
def spoof : Ctx := ⟨⟨42, some (js "Bob"), some (js "bob")⟩, textMessage (js "User ID: 999")⟩

/-- Admin `1` replies with `text` to a message whose text is `original`. -/
def adminReply (text original : JsString) : Ctx :=
  ⟨⟨1, some (js "Alice"), none⟩,
    { text := some text, caption := none, photo := none, video := none, document := none,
      audio := none, voice := none, sticker := none,
      reply_to_message := some ⟨some original⟩ }⟩

/-- A photo message with two sizes and no caption. -/
def photoMessage : Message :=
  { text := none, caption := none, photo := some [js "small", js "large"], video := none,
    document := none, audio := none, voice := none, sticker := none, reply_to_message := none }

/-- User `42` sends a photo. -/
def photoUpdate : Ctx := ⟨⟨42, some (js "Bob"), some (js "bob")⟩, photoMessage⟩

/-- The body of a completion response whose first candidate has the single part `t`. -/
def wellFormedData (t : JsString) : Option ResponseData :=
  some ⟨some [⟨some ⟨some [⟨some t⟩]⟩⟩]⟩

/-- A completion response whose first candidate has the single part `t`. -/
def wellFormed (t : JsString) : ApiOutcome := ApiOutcome.response (wellFormedData t)

/-- A completion response without candidates. -/
def malformed : ApiOutcome := ApiOutcome.response (some ⟨none⟩)

/-- A transport failure of the completion service. -/
def transportError : ApiOutcome := ApiOutcome.throws (js "Network Error")

/-- Admin `1` sends a photo in reply to the copy of the `hello` of user `42` that was
forwarded to them. -/
def adminPhotoReply : Ctx :=
  ⟨⟨1, some (js "Alice"), none⟩,
    { text := none, caption := none, photo := some [js "small", js "large"], video := none,
      document := none, audio := none, voice := none, sticker := none,
      reply_to_message := some ⟨some (forwardText hello)⟩ }⟩

/-- A state with admin `1`, in which user `42` has a history of two turns and user `7`
a history of one. -/
def withHistories : BotState :=
  ⟨[js "1"], [(js "42", bobRecord)], ⟨true, js "You are InstantTalkBot."⟩,
    [(js "42", [⟨Role.user, some (js "hello")⟩, ⟨Role.model, some (js "hi")⟩]),
      (js "7", [⟨Role.user, some (js "ping")⟩])]⟩

/-- A state with admin `1` and no user, in which the global AI flag is off. -/
def globalOff : BotState := ⟨[js "1"], [], ⟨false, js "You are InstantTalkBot."⟩, []⟩

/-- The value of `s` as a decimal numeral, read from its digits. -/
def parseDigits (s : JsString) : Nat := s.foldl (fun acc d => 10 * acc + (d - 48)) 0

/-! ## Strings: digits, `split`, `trim` -/

theorem digitsAux_digits (fuel n : Nat) (acc : List Nat) (h : ∀ x ∈ acc, isDigit x = true) :
    ∀ x ∈ digitsAux fuel n acc, isDigit x = true := by
  induction fuel generalizing n acc with
  | zero => simpa [digitsAux] using h
  | succ f ih =>
    unfold digitsAux
    split
    · intro x hx
      rcases List.mem_cons.1 hx with rfl | hx
      · simp [isDigit]; omega
      · exact h x hx
    · apply ih
      intro x hx
      rcases List.mem_cons.1 hx with rfl | hx
      · simp [isDigit]; omega
      · exact h x hx

theorem idToString_digits (n : Nat) : ∀ x ∈ idToString n, isDigit x = true :=
  digitsAux_digits _ _ _ (by simp)

theorem digitsAux_ne_nil (fuel n : Nat) (acc : List Nat) (h : acc ≠ []) :
    digitsAux fuel n acc ≠ [] := by
  induction fuel generalizing n acc with
  | zero => simpa [digitsAux] using h
  | succ f ih =>
    unfold digitsAux
    split
    · simp
    · exact ih _ _ (by simp)

theorem idToString_ne_nil (n : Nat) : idToString n ≠ [] := by
  unfold idToString digitsAux
  split
  · simp
  · exact digitsAux_ne_nil _ _ _ (by simp)

theorem not_whiteSpace_of_digit {c : Nat} (h : isDigit c = true) : isWhiteSpace c = false := by
  simp only [isDigit, Bool.and_eq_true, decide_eq_true_eq] at h
  simp only [isWhiteSpace, Bool.or_eq_false_iff, Bool.and_eq_false_iff, beq_eq_false_iff_ne,
    decide_eq_false_iff_not]
  omega

theorem dropWhile_id_of_all_false {p : Nat → Bool} (l : List Nat) (h : ∀ x ∈ l, p x = false) :
    l.dropWhile p = l := by
  cases l with
  | nil => rfl
  | cons a t => simp [List.dropWhile, h a (List.mem_cons_self _ _)]

theorem trim_of_no_whiteSpace (w : JsString) (h : ∀ x ∈ w, isWhiteSpace x = false) :
    trim w = w := by
  unfold trim
  rw [dropWhile_id_of_all_false w h, dropWhile_id_of_all_false w.reverse (by simpa using h),
    List.reverse_reverse]

theorem trim_idToString (n : Nat) : trim (idToString n) = idToString n :=
  trim_of_no_whiteSpace _ fun x hx => not_whiteSpace_of_digit (idToString_digits n x hx)

theorem split_of_not_mem (sep : Nat) (w : JsString) (h : sep ∉ w) : split sep w = [w] := by
  induction w with
  | nil => rfl
  | cons c w ih =>
    have hc : c ≠ sep := fun e => h (by simp [e])
    have hw : sep ∉ w := fun e => h (List.mem_cons_of_mem _ e)
    simp [split, hc, ih hw]

theorem split_append (sep : Nat) (w rest : JsString) (h : sep ∉ w) :
    split sep (w ++ sep :: rest) = w :: split sep rest := by
  induction w with
  | nil => simp [split]
  | cons c w ih =>
    have hc : c ≠ sep := fun e => h (by simp [e])
    have hw : sep ∉ w := fun e => h (List.mem_cons_of_mem _ e)
    simp [split, hc, ih hw]

theorem space_not_mem_idToString (n : Nat) : 32 ∉ idToString n := by
  intro h
  have := idToString_digits n 32 h
  simp [isDigit] at this

/-! ## Admin management -/

theorem removeadmin_state (env : Option JsString) (s : BotState) (sender : Nat)
    (text : JsString) :
    (removeadmin env s sender text).state = s ∨
    ∃ t, some t ≠ primaryAdminId env s.admins ∧
      some (idToString sender) = primaryAdminId env s.admins ∧
      (removeadmin env s sender text).state =
        { s with admins := s.admins.filter fun id => id ≠ t } := by
  unfold removeadmin
  simp only []
  split_ifs with h1 h2 h3 h4 h5
  · exact Or.inl rfl
  · exact Or.inl rfl
  · exact Or.inl rfl
  · exact Or.inl rfl
  · exact Or.inl rfl
  · exact Or.inr ⟨_, h2, not_not.1 h3, rfl⟩

theorem addadmin_state (env : Option JsString) (s : BotState) (sender : Nat)
    (text : JsString) :
    (addadmin env s sender text).state = s ∨
    ∃ t, some (idToString sender) = primaryAdminId env s.admins ∧
      (addadmin env s sender text).state = { s with admins := s.admins ++ [t] } := by
  unfold addadmin
  simp only []
  split_ifs with h1 h2 h3
  · exact Or.inl rfl
  · exact Or.inl rfl
  · exact Or.inl rfl
  · exact Or.inr ⟨_, not_not.1 h2, rfl⟩

theorem ne_nil_of_containsPrimary {env : Option JsString} {admins : List JsString}
    (h : containsPrimary env admins = true) : admins ≠ [] := by
  rintro rfl
  unfold containsPrimary at h
  split at h <;> simp at h

theorem primaryAdminId_filter (env : Option JsString) (admins : List JsString) (t : JsString)
    (ht : some t ≠ primaryAdminId env admins) :
    primaryAdminId env (admins.filter fun id => id ≠ t) = primaryAdminId env admins := by
  unfold primaryAdminId at ht ⊢
  split
  · rfl
  · cases admins with
    | nil => rfl
    | cons a rest =>
      have hne : a ≠ t := by
        intro e
        apply ht
        split <;> simp_all
      simp [List.filter, hne]

theorem containsPrimary_filter (env : Option JsString) (admins : List JsString) (t : JsString)
    (ht : some t ≠ primaryAdminId env admins) (h : containsPrimary env admins = true) :
    containsPrimary env (admins.filter fun id => id ≠ t) = true := by
  unfold containsPrimary at h ⊢
  rw [primaryAdminId_filter env admins t ht]
  cases hp : primaryAdminId env admins with
  | none => simp [hp] at h
  | some p =>
    have hpt : p ≠ t := fun e => ht (by rw [hp, e])
    simp only [hp] at h
    simpa [hpt] using h

theorem primaryAdminId_append (env : Option JsString) (admins : List JsString) (t : JsString)
    (hne : admins ≠ []) :
    primaryAdminId env (admins ++ [t]) = primaryAdminId env admins := by
  unfold primaryAdminId
  split
  · rfl
  · cases admins with
    | nil => exact absurd rfl hne
    | cons a rest => rfl

theorem containsPrimary_append (env : Option JsString) (admins : List JsString) (t : JsString)
    (h : containsPrimary env admins = true) :
    containsPrimary env (admins ++ [t]) = true := by
  have hne := ne_nil_of_containsPrimary h
  unfold containsPrimary at h ⊢
  rw [primaryAdminId_append env admins t hne]
  cases hp : primaryAdminId env admins with
  | none => simp [hp] at h
  | some p =>
    simp only [hp] at h
    have hm : p ∈ admins := by simpa using h
    simp [hm]

theorem containsPrimary_of_sender {env : Option JsString} {admins : List JsString} {sender : Nat}
    (hadmin : isAdmin admins sender = true)
    (hp : some (idToString sender) = primaryAdminId env admins) :
    containsPrimary env admins = true := by
  unfold containsPrimary
  rw [← hp]
  exact hadmin

theorem ne_nil_of_isAdmin {admins : List JsString} {sender : Nat}
    (hadmin : isAdmin admins sender = true) : admins ≠ [] := by
  rintro rfl
  simp [isAdmin] at hadmin

theorem isAdmin_of_middleware {admins : List JsString} {sender : Nat} {text : JsString}
    (cmd : JsString) (hmem : cmd ∈ adminCommands) (hne : cmd ≠ [])
    (hcmd : startsWith text cmd = true)
    (hmw : middleware admins sender text = true) : isAdmin admins sender = true := by
  have htext : text ≠ [] := by
    rintro rfl
    cases cmd with
    | nil => exact hne rfl
    | cons c cs => simp [startsWith, List.isPrefixOf] at hcmd
  have hany : adminCommands.any (startsWith text) = true :=
    List.any_eq_true.2 ⟨cmd, hmem, hcmd⟩
  simpa [middleware, htext, hany] using hmw

theorem runAdminCmd_invariant (env : Option JsString) (s : BotState) (c : AdminCmd)
    (sender : Nat) (text : JsString) (h : containsPrimary env s.admins = true) :
    containsPrimary env (runAdminCmd env s c sender text).state.admins = true ∧
    primaryAdminId env (runAdminCmd env s c sender text).state.admins =
      primaryAdminId env s.admins := by
  unfold runAdminCmd
  split_ifs
  · cases c with
    | add =>
      rcases addadmin_state env s sender text with e | ⟨t, _, e⟩
      · rw [e]; exact ⟨h, rfl⟩
      · rw [e]
        exact ⟨containsPrimary_append env _ t h,
          primaryAdminId_append env _ t (ne_nil_of_containsPrimary h)⟩
    | remove =>
      rcases removeadmin_state env s sender text with e | ⟨t, ht, _, e⟩
      · rw [e]; exact ⟨h, rfl⟩
      · rw [e]
        exact ⟨containsPrimary_filter env _ t ht h, primaryAdminId_filter env _ t ht⟩
  · exact ⟨h, rfl⟩

theorem runAdminCmds_invariant (env : Option JsString) (s : BotState)
    (cmds : List (AdminCmd × Nat × JsString)) (h : containsPrimary env s.admins = true) :
    containsPrimary env (runAdminCmds env s cmds).admins = true ∧
    primaryAdminId env (runAdminCmds env s cmds).admins = primaryAdminId env s.admins := by
  induction cmds generalizing s with
  | nil => exact ⟨h, rfl⟩
  | cons x rest ih =>
    obtain ⟨c, sender, text⟩ := x
    have hstep := runAdminCmd_invariant env s c sender text h
    have := ih (runAdminCmd env s c sender text).state hstep.1
    exact ⟨this.1, this.2.trans hstep.2⟩

/-- C1. A `/removeadmin` update that passes the admin-only middleware leaves (saved
or left in place) a non-empty admin list with the same primary admin; the list still
contains the primary admin when it did before, and every list the command saves
contains it.  Consequently, after every sequence of `/addadmin` and `/removeadmin`
updates that starts from a list containing its primary admin, the list is non-empty,
has the same primary admin and contains it. -/
theorem removeadmin_keeps_primary_admin (env : Option JsString) :
    (∀ (s : BotState) (sender : Nat) (text : JsString),
        startsWith text (js "/removeadmin") = true →
        middleware s.admins sender text = true →
        (runAdminCmd env s AdminCmd.remove sender text).state.admins ≠ [] ∧
        primaryAdminId env (runAdminCmd env s AdminCmd.remove sender text).state.admins =
          primaryAdminId env s.admins ∧
        (containsPrimary env s.admins = true →
          containsPrimary env
            (runAdminCmd env s AdminCmd.remove sender text).state.admins = true) ∧
        ((runAdminCmd env s AdminCmd.remove sender text).state.admins ≠ s.admins →
          containsPrimary env
            (runAdminCmd env s AdminCmd.remove sender text).state.admins = true)) ∧
    (∀ (s : BotState) (cmds : List (AdminCmd × Nat × JsString)),
        containsPrimary env s.admins = true →
        (runAdminCmds env s cmds).admins ≠ [] ∧
        primaryAdminId env (runAdminCmds env s cmds).admins = primaryAdminId env s.admins ∧
        containsPrimary env (runAdminCmds env s cmds).admins = true) := by
  refine ⟨?_, ?_⟩
  · intro s sender text hcmd hmw
    have hadmin : isAdmin s.admins sender = true :=
      isAdmin_of_middleware (js "/removeadmin") (by decide) (by decide) hcmd hmw
    have hrun : runAdminCmd env s AdminCmd.remove sender text = removeadmin env s sender text := by
      simp [runAdminCmd, hmw]
    rw [hrun]
    rcases removeadmin_state env s sender text with e | ⟨t, ht, hs, e⟩
    · rw [e]
      exact ⟨ne_nil_of_isAdmin hadmin, rfl, fun h => h, fun h => absurd rfl h⟩
    · rw [e]
      have hc := containsPrimary_filter env _ t ht (containsPrimary_of_sender hadmin hs)
      exact ⟨ne_nil_of_containsPrimary hc, primaryAdminId_filter env _ t ht,
        fun _ => hc, fun _ => hc⟩
  · intro s cmds h
    have := runAdminCmds_invariant env s cmds h
    exact ⟨ne_nil_of_containsPrimary this.1, this.2, this.1⟩

/-- C1, at a concrete input: the primary admin `1` removes admin `2`, and a sequence of
three updates (the last one from a non-primary admin) is run from the same list. -/
theorem removeadmin_keeps_primary_admin_witness :
    (runAdminCmd none twoAdmins AdminCmd.remove 1 (js "/removeadmin 2")).state.admins =
      [js "1"] ∧
    containsPrimary none
      (runAdminCmd none twoAdmins AdminCmd.remove 1 (js "/removeadmin 2")).state.admins = true ∧
    containsPrimary none (runAdminCmds none twoAdmins
      [(AdminCmd.add, 1, js "/addadmin 3"), (AdminCmd.remove, 1, js "/removeadmin 2"),
        (AdminCmd.remove, 3, js "/removeadmin 1")]).admins = true :=
  ⟨by decide,
    ((removeadmin_keeps_primary_admin none).1 twoAdmins 1 (js "/removeadmin 2")
      (by decide) (by decide)).2.2.2 (by decide),
    ((removeadmin_keeps_primary_admin none).2 twoAdmins _ (by decide)).2.2⟩

theorem split_removeadmin (a : Nat) :
    split 32 (js "/removeadmin " ++ idToString a) = [js "/removeadmin", idToString a] := by
  have h : js "/removeadmin " = js "/removeadmin" ++ [32] := by decide
  rw [h, List.append_assoc, List.singleton_append, split_append _ _ _ (by decide),
    split_of_not_mem _ _ (space_not_mem_idToString a)]

/-- C7, as the code has it: when the admin list is exactly `[A1]` and `A1` sends
`/removeadmin A1`, the state is left unchanged and the reply is
`Cannot remove the primary admin (bot owner).` when `A1` is the primary admin (always
so when `ADMIN_ID` is not configured), else `Only the primary admin (bot owner) can
remove admins.`; it is never `Cannot remove the last admin.` -/
theorem removeadmin_only_admin (env : Option JsString) (s : BotState) (a : Nat)
    (h : s.admins = [idToString a]) :
    (runAdminCmd env s AdminCmd.remove a (js "/removeadmin " ++ idToString a)).state = s ∧
    (runAdminCmd env s AdminCmd.remove a (js "/removeadmin " ++ idToString a)).reply =
      (if primaryAdminId env s.admins = some (idToString a) then
        js "Cannot remove the primary admin (bot owner)."
      else js "Only the primary admin (bot owner) can remove admins.") ∧
    (runAdminCmd env s AdminCmd.remove a (js "/removeadmin " ++ idToString a)).reply ≠
      js "Cannot remove the last admin." ∧
    primaryAdminId none s.admins = some (idToString a) := by
  have hmw : middleware s.admins a (js "/removeadmin " ++ idToString a) = true := by
    simp [middleware, isAdmin, h]
  have hrun : runAdminCmd env s AdminCmd.remove a (js "/removeadmin " ++ idToString a) =
      removeadmin env s a (js "/removeadmin " ++ idToString a) := by
    simp [runAdminCmd, hmw]
  have hreply : (removeadmin env s a (js "/removeadmin " ++ idToString a)) =
      ⟨s, if primaryAdminId env s.admins = some (idToString a) then
        js "Cannot remove the primary admin (bot owner)."
      else js "Only the primary admin (bot owner) can remove admins."⟩ := by
    unfold removeadmin
    simp only [split_removeadmin, List.length_cons, List.length_nil, List.getD_cons_succ,
      List.getD_cons_zero, trim_idToString]
    by_cases hp : primaryAdminId env s.admins = some (idToString a)
    · simp [hp]
    · have hp2 : ¬ some (idToString a) = primaryAdminId env s.admins := fun e => hp e.symm
      simp [hp, hp2]
  rw [hrun, hreply]
  refine ⟨rfl, rfl, ?_, by simp [primaryAdminId, h]⟩
  show (if primaryAdminId env s.admins = some (idToString a) then _ else _) ≠ _
  split_ifs <;> decide

/-- C7, at a concrete input. -/
theorem removeadmin_only_admin_witness :
    (runAdminCmd none oneAdmin AdminCmd.remove 123456789 (js "/removeadmin " ++ idToString 123456789)).state
      = oneAdmin :=
  (removeadmin_only_admin none oneAdmin 123456789 (by decide)).1

/-- C7 as stated fails: with the admin list `[123456789]` and no configured `ADMIN_ID`,
`/removeadmin 123456789` from that admin is answered
`Cannot remove the primary admin (bot owner).`, not `Cannot remove the last admin.` -/
theorem removeadmin_only_admin_counterexample :
    (runAdminCmd none oneAdmin AdminCmd.remove 123456789 (js "/removeadmin 123456789")).reply =
      js "Cannot remove the primary admin (bot owner)." ∧
    (runAdminCmd none oneAdmin AdminCmd.remove 123456789 (js "/removeadmin 123456789")).reply ≠
      js "Cannot remove the last admin." := by
  decide

/-- C8. An `/addadmin` or `/removeadmin` update whose sender is not the primary admin
(the configured `ADMIN_ID`, else the first element of the admin list) leaves the
admin list, and the whole state, unchanged whatever its text: both through the
middleware and when the handler runs directly. -/
theorem admin_list_unchanged_unless_primary (env : Option JsString) (s : BotState)
    (c : AdminCmd) (sender : Nat) (text : JsString)
    (h : some (idToString sender) ≠ primaryAdminId env s.admins) :
    (runAdminCmd env s c sender text).state.admins = s.admins ∧
    (runAdminCmd env s c sender text).state = s ∧
    (addadmin env s sender text).state = s ∧
    (removeadmin env s sender text).state = s := by
  have hadd : (addadmin env s sender text).state = s := by
    rcases addadmin_state env s sender text with e | ⟨t, hs, _⟩
    · exact e
    · exact absurd hs h
  have hrem : (removeadmin env s sender text).state = s := by
    rcases removeadmin_state env s sender text with e | ⟨t, _, hs, _⟩
    · exact e
    · exact absurd hs h
  have hrun : (runAdminCmd env s c sender text).state = s := by
    unfold runAdminCmd
    split_ifs
    · cases c
      · exact hadd
      · exact hrem
    · rfl
  exact ⟨by rw [hrun], hrun, hadd, hrem⟩

/-- C8, at a concrete input: admin `2` is not the primary admin `1`. -/
theorem admin_list_unchanged_unless_primary_witness :
    (runAdminCmd none twoAdmins AdminCmd.remove 2 (js "/removeadmin 1")).state.admins =
      twoAdmins.admins ∧
    (runAdminCmd none twoAdmins AdminCmd.add 2 (js "/addadmin 7")).state.admins =
      twoAdmins.admins :=
  ⟨(admin_list_unchanged_unless_primary none twoAdmins AdminCmd.remove 2 _ (by decide)).1,
    (admin_list_unchanged_unless_primary none twoAdmins AdminCmd.add 2 _ (by decide)).1⟩

/-! ## The effective AI flag -/

theorem aimode_users (s : BotState) (sender : Nat) (text : JsString) :
    (aimode s sender text).state.users = s.users := by
  unfold aimode
  simp only []
  split_ifs <;> rfl

theorem isAIEnabled_of_override {s : BotState} {u : JsString} {r : UserRecord} {b : Bool}
    (hr : Dict.get s.users u = some r) (hb : r.aiEnabled = some b) : isAIEnabled s u = b := by
  simp [isAIEnabled, hr, hb]

/-- C4. `isAIEnabled(u)` is the explicit override of the record of `u` when the
record exists and has one, and the global `enabled` flag otherwise; so for a user with
an explicit override `b` the value is `b` before and after any `/aimode` update,
whoever sends it and whatever its text. -/
theorem isAIEnabled_override_wins (s : BotState) (u : JsString) :
    isAIEnabled s u = effectiveAIEnabled s u ∧
    (Dict.get s.users u = none → isAIEnabled s u = s.aiSettings.enabled) ∧
    (∀ r, Dict.get s.users u = some r → r.aiEnabled = none →
      isAIEnabled s u = s.aiSettings.enabled) ∧
    (∀ r b, Dict.get s.users u = some r → r.aiEnabled = some b →
      isAIEnabled s u = b ∧
      ∀ (sender : Nat) (text : JsString), isAIEnabled (aimode s sender text).state u = b) := by
  refine ⟨?_, ?_, ?_, ?_⟩
  · unfold isAIEnabled effectiveAIEnabled
    cases Dict.get s.users u with
    | none => rfl
    | some r => cases hr : r.aiEnabled <;> simp [hr]
  · intro h
    simp [isAIEnabled, h]
  · intro r h hn
    simp [isAIEnabled, h, hn]
  · intro r b hr hb
    refine ⟨isAIEnabled_of_override hr hb, fun sender text => ?_⟩
    exact isAIEnabled_of_override (by rw [aimode_users]; exact hr) hb

/-- C4, at a concrete input: admin `1` turns the global flag off, and user `42`, whose
override is `true`, keeps an enabled AI. -/
theorem isAIEnabled_override_wins_witness :
    (aimode withOverride 1 (js "/aimode off")).state.aiSettings.enabled = false ∧
    isAIEnabled withOverride (js "42") = true ∧
    isAIEnabled (aimode withOverride 1 (js "/aimode off")).state (js "42") = true :=
  ⟨by decide,
    ((isAIEnabled_override_wins withOverride (js "42")).2.2.2 bobRecord true
      (by decide) (by decide)).1,
    ((isAIEnabled_override_wins withOverride (js "42")).2.2.2 bobRecord true
      (by decide) (by decide)).2
      1 (js "/aimode off")⟩

/-! ## Traces -/

theorem attemptedTargets_append (a b : List Event) :
    attemptedTargets (a ++ b) = attemptedTargets a ++ attemptedTargets b := by
  induction a with
  | nil => rfl
  | cons e rest ih =>
    cases e with
    | log msg => simpa [attemptedTargets] using ih
    | call c ok => cases c <;> simpa [attemptedTargets] using ih

theorem deliveredTargets_append (a b : List Event) :
    deliveredTargets (a ++ b) = deliveredTargets a ++ deliveredTargets b := by
  induction a with
  | nil => rfl
  | cons e rest ih =>
    cases e with
    | log msg => simpa [deliveredTargets] using ih
    | call c ok => cases c <;> cases ok <;> simpa [deliveredTargets] using ih

theorem repliesSent_append (a b : List Event) :
    repliesSent (a ++ b) = repliesSent a ++ repliesSent b := by
  induction a with
  | nil => rfl
  | cons e rest ih =>
    cases e with
    | log msg => simpa [repliesSent] using ih
    | call c ok => cases c <;> cases ok <;> simpa [repliesSent] using ih

theorem tryCatch_logged_error (body : Outcome) (msg : JsString) :
    (tryCatch body fun _ => logged msg).error = none := by
  unfold tryCatch
  cases h : body.error with
  | none => simpa using h
  | some e => rfl

theorem tryCatch_logged_trace (body : Outcome) (msg : JsString) :
    (tryCatch body fun _ => logged msg).trace =
      body.trace ++ (if body.error.isSome then [Event.log msg] else []) := by
  unfold tryCatch
  cases h : body.error with
  | none => simp [h]
  | some e => simp [logged]

theorem forOf_of_no_error {α : Type} (xs : List α) (body : α → Outcome)
    (h : ∀ x, (body x).error = none) :
    (forOf xs body).error = none ∧
    (forOf xs body).trace = xs.flatMap fun x => (body x).trace := by
  induction xs with
  | nil => exact ⟨rfl, rfl⟩
  | cons x rest ih =>
    unfold forOf Outcome.andThen
    simp only [h x, List.flatMap_cons]
    exact ⟨ih.1, by rw [ih.2]⟩

theorem attemptedTargets_flatMap {α : Type} (xs : List α) (f : α → List Event) :
    attemptedTargets (xs.flatMap f) = xs.flatMap fun x => attemptedTargets (f x) := by
  induction xs with
  | nil => rfl
  | cons x rest ih => simp [List.flatMap_cons, attemptedTargets_append, ih]

theorem deliveredTargets_flatMap {α : Type} (xs : List α) (f : α → List Event) :
    deliveredTargets (xs.flatMap f) = xs.flatMap fun x => deliveredTargets (f x) := by
  induction xs with
  | nil => rfl
  | cons x rest ih => simp [List.flatMap_cons, deliveredTargets_append, ih]

theorem repliesSent_flatMap {α : Type} (xs : List α) (f : α → List Event) :
    repliesSent (xs.flatMap f) = xs.flatMap fun x => repliesSent (f x) := by
  induction xs with
  | nil => rfl
  | cons x rest ih => simp [List.flatMap_cons, repliesSent_append, ih]

/-! ## Forwarding to the admins -/

theorem forwardTextToAdmins_run (fails : Oracle) (s : BotState) (ctx : Ctx) :
    (forwardTextToAdmins fails s ctx).error = none ∧
    (forwardTextToAdmins fails s ctx).trace = s.admins.flatMap fun adminId =>
      (tryCatch (perform fails (Call.telegram Api.sendMessage adminId (forwardText ctx) none))
        fun _ => logged (js "Failed to forward message to admin " ++ adminId ++ js ":")).trace :=
  forOf_of_no_error _ _ fun _ => tryCatch_logged_error _ _

theorem forwardMediaToAdmins_run (fails : Oracle) (s : BotState) (ctx : Ctx) :
    (forwardMediaToAdmins fails s ctx).error = none ∧
    (forwardMediaToAdmins fails s ctx).trace = s.admins.flatMap fun adminId =>
      (tryCatch (forwardMediaTo fails ctx adminId)
        fun _ => logged (js "Failed to forward media to admin " ++ adminId ++ js ":")).trace :=
  forOf_of_no_error _ _ fun _ => tryCatch_logged_error _ _

theorem forwardText_attempted (fails : Oracle) (s : BotState) (ctx : Ctx) :
    attemptedTargets (forwardTextToAdmins fails s ctx).trace = s.admins := by
  rw [(forwardTextToAdmins_run fails s ctx).2, attemptedTargets_flatMap]
  have h : ∀ adminId : JsString, attemptedTargets
      (tryCatch (perform fails (Call.telegram Api.sendMessage adminId (forwardText ctx) none))
        fun _ => logged (js "Failed to forward message to admin " ++ adminId ++ js ":")).trace
      = [adminId] := by
    intro adminId
    rw [tryCatch_logged_trace, attemptedTargets_append]
    simp only [perform]
    split_ifs <;> simp [attemptedTargets]
  simp only [h]
  exact List.flatMap_singleton' _

theorem forwardText_delivered (fails : Oracle) (s : BotState) (ctx : Ctx) :
    deliveredTargets (forwardTextToAdmins fails s ctx).trace =
      s.admins.filter fun adminId =>
        (fails (Call.telegram Api.sendMessage adminId (forwardText ctx) none)).isNone := by
  rw [(forwardTextToAdmins_run fails s ctx).2, deliveredTargets_flatMap]
  induction s.admins with
  | nil => rfl
  | cons a rest ih =>
    rw [List.flatMap_cons, ih, tryCatch_logged_trace, deliveredTargets_append]
    simp only [perform]
    rcases Option.eq_none_or_eq_some
      (fails (Call.telegram Api.sendMessage a (forwardText ctx) none)) with hf | ⟨e, hf⟩ <;>
      simp [deliveredTargets, List.filter_cons, hf]

theorem forwardMediaTo_shape (fails : Oracle) (ctx : Ctx) (adminId : JsString)
    (h : isMediaMessage ctx.message = true) :
    (∃ api payload caption,
      forwardMediaTo fails ctx adminId = perform fails (Call.telegram api adminId payload caption)) ∨
    (∃ payload text,
      forwardMediaTo fails ctx adminId =
        (perform fails (Call.telegram Api.sendSticker adminId payload none)).andThen
          (perform fails (Call.telegram Api.sendMessage adminId text none))) := by
  unfold forwardMediaTo
  simp only []
  split
  · rename_i sizes hphoto
    cases hl : sizes.getLast? with
    | none =>
      have : sizes = [] := by simpa using hl
      simp [isMediaMessage, hphoto, this] at h
    | some fileId => exact Or.inl ⟨_, _, _, rfl⟩
  · exact Or.inl ⟨_, _, _, rfl⟩
  · exact Or.inl ⟨_, _, _, rfl⟩
  · exact Or.inl ⟨_, _, _, rfl⟩
  · exact Or.inl ⟨_, _, _, rfl⟩
  · exact Or.inr ⟨_, _, rfl⟩
  · rename_i h1 h2 h3 h4 h5 h6
    simp [isMediaMessage, h1, h2, h3, h4, h5, h6] at h

theorem forwardMedia_attempts (fails : Oracle) (ctx : Ctx) (adminId : JsString)
    (h : isMediaMessage ctx.message = true) :
    ∃ k, attemptedTargets
      (tryCatch (forwardMediaTo fails ctx adminId)
        fun _ => logged (js "Failed to forward media to admin " ++ adminId ++ js ":")).trace =
      adminId :: List.replicate k adminId := by
  rw [tryCatch_logged_trace, attemptedTargets_append]
  rcases forwardMediaTo_shape fails ctx adminId h with ⟨api, p, c, e⟩ | ⟨p, t, e⟩
  · refine ⟨0, ?_⟩
    rw [e]
    simp only [perform]
    split_ifs <;> simp [attemptedTargets]
  · rw [e]
    rcases Option.eq_none_or_eq_some
      (fails (Call.telegram Api.sendSticker adminId p none)) with hf | ⟨err, hf⟩
    · refine ⟨1, ?_⟩
      simp only [perform, Outcome.andThen, hf]
      split_ifs <;> simp [attemptedTargets]
    · refine ⟨0, ?_⟩
      simp [perform, Outcome.andThen, hf, attemptedTargets]

theorem forwardMedia_delivers (fails : Oracle) (ctx : Ctx) (adminId : JsString)
    (h : isMediaMessage ctx.message = true)
    (hok : ∀ api payload caption, fails (Call.telegram api adminId payload caption) = none) :
    adminId ∈ deliveredTargets
      (tryCatch (forwardMediaTo fails ctx adminId)
        fun _ => logged (js "Failed to forward media to admin " ++ adminId ++ js ":")).trace := by
  rw [tryCatch_logged_trace, deliveredTargets_append]
  rcases forwardMediaTo_shape fails ctx adminId h with ⟨api, p, c, e⟩ | ⟨p, t, e⟩
  · rw [e]
    simp [perform, hok, deliveredTargets]
  · rw [e]
    simp [perform, Outcome.andThen, hok, deliveredTargets]

theorem sublist_flatMap_of_heads (xs : List JsString) (f : JsString → List JsString)
    (h : ∀ x, ∃ k, f x = x :: List.replicate k x) : List.Sublist xs (xs.flatMap f) := by
  induction xs with
  | nil => exact List.Sublist.slnil
  | cons x rest ih =>
    obtain ⟨k, hk⟩ := h x
    rw [List.flatMap_cons, hk, List.cons_append]
    exact List.Sublist.cons₂ _ (List.Sublist.trans ih (List.sublist_append_right _ _))

theorem registerUser_admins (s : BotState) (ctx : Ctx) :
    (registerUser s ctx).admins = s.admins := by
  unfold registerUser
  simp only []
  split <;> rfl

theorem forwardMediaToAdmins_congr (fails : Oracle) (s t : BotState) (ctx : Ctx)
    (h : t.admins = s.admins) :
    forwardMediaToAdmins fails t ctx = forwardMediaToAdmins fails s ctx := by
  unfold forwardMediaToAdmins
  rw [h]

theorem forwarding_targets (fails : Oracle) (s : BotState) (ctx : Ctx) :
    ((forwardTextToAdmins fails s ctx).error = none ∧
      attemptedTargets (forwardTextToAdmins fails s ctx).trace = s.admins ∧
      deliveredTargets (forwardTextToAdmins fails s ctx).trace =
        s.admins.filter fun adminId =>
          (fails (Call.telegram Api.sendMessage adminId (forwardText ctx) none)).isNone) ∧
    (isMediaMessage ctx.message = true →
      (forwardMediaToAdmins fails s ctx).error = none ∧
      List.Sublist s.admins (attemptedTargets (forwardMediaToAdmins fails s ctx).trace) ∧
      (∀ x ∈ attemptedTargets (forwardMediaToAdmins fails s ctx).trace, x ∈ s.admins) ∧
      (∀ adminId ∈ s.admins,
        (∀ api payload caption, fails (Call.telegram api adminId payload caption) = none) →
        adminId ∈ deliveredTargets (forwardMediaToAdmins fails s ctx).trace)) ∧
    (isMediaMessage ctx.message = true → isAdmin s.admins ctx.sender.id = false →
      truthy ctx.message.text = false →
      ∀ api : ApiOutcome,
        attemptedTargets (handleForwardToAdmins fails api s ctx).2.trace =
          attemptedTargets (forwardMediaToAdmins fails s ctx).trace ∧
        deliveredTargets (handleForwardToAdmins fails api s ctx).2.trace =
          deliveredTargets (forwardMediaToAdmins fails s ctx).trace ∧
        (fails (Call.reply (js "Your message has been forwarded to our team.")) = none →
          (handleForwardToAdmins fails api s ctx).2.error = none)) := by
  refine ⟨⟨(forwardTextToAdmins_run fails s ctx).1, forwardText_attempted fails s ctx,
    forwardText_delivered fails s ctx⟩, ?_, ?_⟩
  · intro hm
    have hrun := forwardMediaToAdmins_run fails s ctx
    refine ⟨hrun.1, ?_, ?_, ?_⟩
    · rw [hrun.2, attemptedTargets_flatMap]
      exact sublist_flatMap_of_heads _ _ fun x => forwardMedia_attempts fails ctx x hm
    · rw [hrun.2, attemptedTargets_flatMap]
      intro x hx
      obtain ⟨a, ha, hxa⟩ := List.mem_flatMap.1 hx
      obtain ⟨k, hk⟩ := forwardMedia_attempts fails ctx a hm
      rw [hk] at hxa
      rcases List.mem_cons.1 hxa with e | e
      · rw [e]; exact ha
      · rw [(List.mem_replicate.1 e).2]; exact ha
    · intro a ha hok
      rw [hrun.2, deliveredTargets_flatMap]
      exact List.mem_flatMap.2 ⟨a, ha, forwardMedia_delivers fails ctx a hm hok⟩
  · intro hm hadmin htext api
    have hloop := forwardMediaToAdmins_congr fails s (registerUser s ctx) ctx
      (registerUser_admins s ctx)
    have herr := (forwardMediaToAdmins_run fails s ctx).1
    unfold handleForwardToAdmins
    simp only [hadmin, htext, hloop, Outcome.andThen, herr]
    simp only [Bool.false_eq_true, if_false, and_false]
    split_ifs <;>
      simp [perform, Outcome.skip, attemptedTargets_append, deliveredTargets_append,
        attemptedTargets, deliveredTargets]

theorem telegramCalls_append (a b : List Event) :
    telegramCalls (a ++ b) = telegramCalls a ++ telegramCalls b := by
  induction a with
  | nil => rfl
  | cons e rest ih =>
    cases e with
    | log msg => simpa [telegramCalls] using ih
    | call c ok => cases c <;> simpa [telegramCalls] using ih

theorem deliveredCalls_append (a b : List Event) :
    deliveredCalls (a ++ b) = deliveredCalls a ++ deliveredCalls b := by
  induction a with
  | nil => rfl
  | cons e rest ih =>
    cases e with
    | log msg => simpa [deliveredCalls] using ih
    | call c ok => cases c <;> cases ok <;> simpa [deliveredCalls] using ih

theorem attemptedReplies_append (a b : List Event) :
    attemptedReplies (a ++ b) = attemptedReplies a ++ attemptedReplies b := by
  induction a with
  | nil => rfl
  | cons e rest ih =>
    cases e with
    | log msg => simpa [attemptedReplies] using ih
    | call c ok => cases c <;> simpa [attemptedReplies] using ih

theorem telegramCalls_flatMap {α : Type} (xs : List α) (f : α → List Event) :
    telegramCalls (xs.flatMap f) = xs.flatMap fun x => telegramCalls (f x) := by
  induction xs with
  | nil => rfl
  | cons x rest ih => simp [List.flatMap_cons, telegramCalls_append, ih]

theorem deliveredCalls_flatMap {α : Type} (xs : List α) (f : α → List Event) :
    deliveredCalls (xs.flatMap f) = xs.flatMap fun x => deliveredCalls (f x) := by
  induction xs with
  | nil => rfl
  | cons x rest ih => simp [List.flatMap_cons, deliveredCalls_append, ih]

theorem attemptedReplies_flatMap {α : Type} (xs : List α) (f : α → List Event) :
    attemptedReplies (xs.flatMap f) = xs.flatMap fun x => attemptedReplies (f x) := by
  induction xs with
  | nil => rfl
  | cons x rest ih => simp [List.flatMap_cons, attemptedReplies_append, ih]

theorem flatMap_singleton_eq_map {α β : Type} (xs : List α) (f : α → β) :
    (xs.flatMap fun x => [f x]) = xs.map f := by
  induction xs with
  | nil => rfl
  | cons x rest ih => simp [List.flatMap_cons, ih]

theorem flatMap_filter {α : Type} (xs : List (List α)) (p : α → Bool) :
    (xs.flatMap fun l => l.filter p) = (xs.flatMap fun l => l).filter p := by
  induction xs with
  | nil => rfl
  | cons x rest ih => simp [List.flatMap_cons, ih]

/-- The run of one call, caught and logged: its `bot.telegram` call is attempted, and
delivered when the oracle lets it through. -/
theorem calls_of_caught_perform (fails : Oracle) (c : Call) (msg : JsString)
    (api : Api) (chatId payload : JsString) (caption : Option JsString)
    (hc : c = Call.telegram api chatId payload caption) :
    telegramCalls (tryCatch (perform fails c) fun _ => logged msg).trace = [c] ∧
    deliveredCalls (tryCatch (perform fails c) fun _ => logged msg).trace =
      [c].filter fun x => (fails x).isNone := by
  subst hc
  rw [tryCatch_logged_trace, telegramCalls_append, deliveredCalls_append]
  simp only [perform]
  rcases Option.eq_none_or_eq_some (fails (Call.telegram api chatId payload caption))
    with hf | ⟨e, hf⟩ <;>
    simp [hf, telegramCalls, deliveredCalls, List.filter_cons]

/-- The run of a sticker and its identifying text, caught and logged. -/
theorem calls_of_caught_pair (fails : Oracle) (msg : JsString) (chatId fileId text : JsString) :
    telegramCalls (tryCatch
      ((perform fails (Call.telegram Api.sendSticker chatId fileId none)).andThen
        (perform fails (Call.telegram Api.sendMessage chatId text none)))
      fun _ => logged msg).trace =
      (if (fails (Call.telegram Api.sendSticker chatId fileId none)).isNone then
        [Call.telegram Api.sendSticker chatId fileId none,
          Call.telegram Api.sendMessage chatId text none]
      else [Call.telegram Api.sendSticker chatId fileId none]) ∧
    deliveredCalls (tryCatch
      ((perform fails (Call.telegram Api.sendSticker chatId fileId none)).andThen
        (perform fails (Call.telegram Api.sendMessage chatId text none)))
      fun _ => logged msg).trace =
      (if (fails (Call.telegram Api.sendSticker chatId fileId none)).isNone then
        [Call.telegram Api.sendSticker chatId fileId none,
          Call.telegram Api.sendMessage chatId text none]
      else [Call.telegram Api.sendSticker chatId fileId none]).filter
        fun x => (fails x).isNone := by
  rw [tryCatch_logged_trace, telegramCalls_append, deliveredCalls_append]
  simp only [perform, Outcome.andThen]
  rcases Option.eq_none_or_eq_some (fails (Call.telegram Api.sendSticker chatId fileId none))
    with hf | ⟨e, hf⟩
  · rcases Option.eq_none_or_eq_some (fails (Call.telegram Api.sendMessage chatId text none))
      with hg | ⟨e2, hg⟩ <;>
      simp [hf, hg, telegramCalls, deliveredCalls, List.filter_cons]
  · simp [hf, telegramCalls, deliveredCalls, List.filter_cons]

theorem calls_of_flatMap {α : Type} (xs : List α) (f : α → List Event) (g : α → List Call)
    (p : Call → Bool)
    (h : ∀ a, telegramCalls (f a) = g a ∧ deliveredCalls (f a) = (g a).filter p) :
    telegramCalls (xs.flatMap f) = xs.flatMap g ∧
    deliveredCalls (xs.flatMap f) = (xs.flatMap g).filter p := by
  induction xs with
  | nil => exact ⟨rfl, rfl⟩
  | cons x rest ih =>
    constructor
    · rw [List.flatMap_cons, List.flatMap_cons, telegramCalls_append, (h x).1, ih.1]
    · rw [List.flatMap_cons, List.flatMap_cons, deliveredCalls_append, (h x).2, ih.2,
        List.filter_append]

theorem forwardText_calls (fails : Oracle) (s : BotState) (ctx : Ctx) :
    telegramCalls (forwardTextToAdmins fails s ctx).trace =
      s.admins.map (fun adminId =>
        Call.telegram Api.sendMessage adminId (forwardText ctx) none) ∧
    deliveredCalls (forwardTextToAdmins fails s ctx).trace =
      (s.admins.map fun adminId =>
        Call.telegram Api.sendMessage adminId (forwardText ctx) none).filter
        fun c => (fails c).isNone := by
  rw [(forwardTextToAdmins_run fails s ctx).2,
    ← flatMap_singleton_eq_map s.admins fun adminId =>
      Call.telegram Api.sendMessage adminId (forwardText ctx) none]
  exact calls_of_flatMap _ _ _ _ fun a =>
    calls_of_caught_perform fails _ _ _ _ _ _ rfl

/-- The calls of the admin loop of `handleForwardToAdmins` when the body of its `try`
block is a single call. -/
theorem forwardMedia_calls_single (fails : Oracle) (s : BotState) (ctx : Ctx)
    (api : Api) (payload : JsString) (caption : Option JsString)
    (h : ∀ adminId, forwardMediaTo fails ctx adminId =
      perform fails (Call.telegram api adminId payload caption)) :
    telegramCalls (forwardMediaToAdmins fails s ctx).trace =
      s.admins.map (fun adminId => Call.telegram api adminId payload caption) ∧
    deliveredCalls (forwardMediaToAdmins fails s ctx).trace =
      (s.admins.map fun adminId => Call.telegram api adminId payload caption).filter
        fun c => (fails c).isNone := by
  rw [(forwardMediaToAdmins_run fails s ctx).2,
    ← flatMap_singleton_eq_map s.admins fun adminId => Call.telegram api adminId payload caption]
  exact calls_of_flatMap _ _ _ _ fun a => by
    rw [h a]
    exact calls_of_caught_perform fails _ _ _ _ _ _ rfl

/-- The calls of the admin loop of `handleForwardToAdmins` for a sticker. -/
theorem forwardMedia_calls_sticker (fails : Oracle) (s : BotState) (ctx : Ctx)
    (fileId : JsString)
    (h : ∀ adminId, forwardMediaTo fails ctx adminId =
      (perform fails (Call.telegram Api.sendSticker adminId fileId none)).andThen
        (perform fails (Call.telegram Api.sendMessage adminId
          (mediaCaption (js "Sticker") false ctx) none))) :
    telegramCalls (forwardMediaToAdmins fails s ctx).trace =
      (s.admins.flatMap fun adminId =>
        if (fails (Call.telegram Api.sendSticker adminId fileId none)).isNone then
          [Call.telegram Api.sendSticker adminId fileId none,
            Call.telegram Api.sendMessage adminId (mediaCaption (js "Sticker") false ctx) none]
        else [Call.telegram Api.sendSticker adminId fileId none]) ∧
    deliveredCalls (forwardMediaToAdmins fails s ctx).trace =
      (s.admins.flatMap fun adminId =>
        if (fails (Call.telegram Api.sendSticker adminId fileId none)).isNone then
          [Call.telegram Api.sendSticker adminId fileId none,
            Call.telegram Api.sendMessage adminId (mediaCaption (js "Sticker") false ctx) none]
        else [Call.telegram Api.sendSticker adminId fileId none]).filter
        fun c => (fails c).isNone := by
  rw [(forwardMediaToAdmins_run fails s ctx).2]
  exact calls_of_flatMap _ _ _ _ fun a => by
    rw [h a]
    exact calls_of_caught_pair fails _ a fileId _

theorem deliveredCalls_of_recorded (fails : Oracle) (l : List Event)
    (h : Recorded fails l) :
    deliveredCalls l = (telegramCalls l).filter fun c => (fails c).isNone := by
  induction l with
  | nil => rfl
  | cons e rest ih =>
    have hrest : Recorded fails rest := fun c ok hc => h c ok (List.mem_cons_of_mem _ hc)
    cases e with
    | log msg => simpa [telegramCalls, deliveredCalls] using ih hrest
    | call c ok =>
      have hok := h c ok (List.mem_cons_self _ _)
      cases c with
      | telegram api chatId payload caption =>
        cases ok with
        | true =>
          simp [telegramCalls, deliveredCalls, List.filter_cons, ← hok, ih hrest]
        | false =>
          simp [telegramCalls, deliveredCalls, List.filter_cons, ← hok, ih hrest]
      | reply t => cases ok <;> simpa [telegramCalls, deliveredCalls] using ih hrest
      | replyWithChatAction t =>
        cases ok <;> simpa [telegramCalls, deliveredCalls] using ih hrest

theorem recorded_append {fails : Oracle} {a b : List Event} (ha : Recorded fails a)
    (hb : Recorded fails b) : Recorded fails (a ++ b) := by
  intro c ok hc
  rcases List.mem_append.1 hc with h | h
  · exact ha c ok h
  · exact hb c ok h

theorem recorded_perform (fails : Oracle) (c : Call) : Recorded fails (perform fails c).trace := by
  intro c2 ok hc
  simp only [perform, List.mem_singleton] at hc
  injection hc with h1 h2
  rw [h1, h2]

theorem recorded_andThen {fails : Oracle} {a b : Outcome} (ha : Recorded fails a.trace)
    (hb : Recorded fails b.trace) : Recorded fails (a.andThen b).trace := by
  unfold Outcome.andThen
  split
  · exact ha
  · exact recorded_append ha hb

theorem recorded_tryCatch_logged {fails : Oracle} {body : Outcome} (msg : JsString)
    (h : Recorded fails body.trace) :
    Recorded fails (tryCatch body fun _ => logged msg).trace := by
  rw [tryCatch_logged_trace]
  refine recorded_append h ?_
  intro c ok hc
  split_ifs at hc <;> simp at hc

theorem recorded_forOf {α : Type} {fails : Oracle} (xs : List α) (body : α → Outcome)
    (h : ∀ x, Recorded fails (body x).trace) : Recorded fails (forOf xs body).trace := by
  induction xs with
  | nil => intro c ok hc; simp [forOf, Outcome.skip] at hc
  | cons x rest ih =>
    unfold forOf
    exact recorded_andThen (h x) ih

theorem recorded_forwardMediaTo (fails : Oracle) (ctx : Ctx) (adminId : JsString) :
    Recorded fails (forwardMediaTo fails ctx adminId).trace := by
  unfold forwardMediaTo
  simp only []
  split
  · split
    · intro c ok hc; simp [Outcome.throw] at hc
    · exact recorded_perform _ _
  · exact recorded_perform _ _
  · exact recorded_perform _ _
  · exact recorded_perform _ _
  · exact recorded_perform _ _
  · exact recorded_andThen (recorded_perform _ _) (recorded_perform _ _)
  · intro c ok hc; simp [Outcome.skip] at hc

theorem recorded_forwardMediaToAdmins (fails : Oracle) (s : BotState) (ctx : Ctx) :
    Recorded fails (forwardMediaToAdmins fails s ctx).trace :=
  recorded_forOf _ _ fun a => recorded_tryCatch_logged _ (recorded_forwardMediaTo fails ctx a)

/-- C10. Whatever calls the oracle makes throw, the two forwarders do not throw and
send every admin, in list order, the copy of the message.  `forwardTextToAdmins`
attempts exactly the calls `sendMessage(adminId, copy)`, one per admin in list order,
and exactly those the oracle lets through are delivered.  The admin loop of
`handleForwardToAdmins` attempts, per admin in list order, the call of the kind of the
message with the `file_id` of the update and the caption naming the sender (for a
sticker the sticker, then the naming text unless the sticker call threw), and again
exactly the calls the oracle lets through are delivered.  `handleForwardToAdmins` as a
whole, for a regular sender of a message without text, makes these calls, then its
acknowledgement when the AI is off for the sender, and throws only if that
acknowledgement does. -/
theorem forwarding_reaches_every_admin (fails : Oracle) (s : BotState) (ctx : Ctx) :
    ((forwardTextToAdmins fails s ctx).error = none ∧
      telegramCalls (forwardTextToAdmins fails s ctx).trace =
        s.admins.map (fun adminId =>
          Call.telegram Api.sendMessage adminId (forwardText ctx) none) ∧
      deliveredCalls (forwardTextToAdmins fails s ctx).trace =
        (s.admins.map fun adminId =>
          Call.telegram Api.sendMessage adminId (forwardText ctx) none).filter
          fun c => (fails c).isNone) ∧
    ((forwardMediaToAdmins fails s ctx).error = none ∧
      deliveredCalls (forwardMediaToAdmins fails s ctx).trace =
        (telegramCalls (forwardMediaToAdmins fails s ctx).trace).filter
          fun c => (fails c).isNone) ∧
    (∀ sizes fileId, ctx.message.photo = some sizes → sizes.getLast? = some fileId →
      telegramCalls (forwardMediaToAdmins fails s ctx).trace =
        s.admins.map fun adminId => Call.telegram Api.sendPhoto adminId fileId
          (some (mediaCaption (js "Photo") true ctx))) ∧
    (∀ fileId, ctx.message.photo = none → ctx.message.video = some fileId →
      telegramCalls (forwardMediaToAdmins fails s ctx).trace =
        s.admins.map fun adminId => Call.telegram Api.sendVideo adminId fileId
          (some (mediaCaption (js "Video") true ctx))) ∧
    (∀ fileId, ctx.message.photo = none → ctx.message.video = none →
      ctx.message.document = some fileId →
      telegramCalls (forwardMediaToAdmins fails s ctx).trace =
        s.admins.map fun adminId => Call.telegram Api.sendDocument adminId fileId
          (some (mediaCaption (js "Document") true ctx))) ∧
    (∀ fileId, ctx.message.photo = none → ctx.message.video = none →
      ctx.message.document = none → ctx.message.audio = some fileId →
      telegramCalls (forwardMediaToAdmins fails s ctx).trace =
        s.admins.map fun adminId => Call.telegram Api.sendAudio adminId fileId
          (some (mediaCaption (js "Audio") true ctx))) ∧
    (∀ fileId, ctx.message.photo = none → ctx.message.video = none →
      ctx.message.document = none → ctx.message.audio = none →
      ctx.message.voice = some fileId →
      telegramCalls (forwardMediaToAdmins fails s ctx).trace =
        s.admins.map fun adminId => Call.telegram Api.sendVoice adminId fileId
          (some (mediaCaption (js "Voice message") false ctx))) ∧
    (∀ fileId, ctx.message.photo = none → ctx.message.video = none →
      ctx.message.document = none → ctx.message.audio = none → ctx.message.voice = none →
      ctx.message.sticker = some fileId →
      telegramCalls (forwardMediaToAdmins fails s ctx).trace =
        s.admins.flatMap fun adminId =>
          if (fails (Call.telegram Api.sendSticker adminId fileId none)).isNone then
            [Call.telegram Api.sendSticker adminId fileId none,
              Call.telegram Api.sendMessage adminId
                (mediaCaption (js "Sticker") false ctx) none]
          else [Call.telegram Api.sendSticker adminId fileId none]) ∧
    (isMediaMessage ctx.message = true →
      List.Sublist s.admins (attemptedTargets (forwardMediaToAdmins fails s ctx).trace) ∧
      (∀ x ∈ attemptedTargets (forwardMediaToAdmins fails s ctx).trace, x ∈ s.admins) ∧
      (∀ adminId ∈ s.admins,
        (∀ api payload caption, fails (Call.telegram api adminId payload caption) = none) →
        adminId ∈ deliveredTargets (forwardMediaToAdmins fails s ctx).trace)) ∧
    (isAdmin s.admins ctx.sender.id = false → truthy ctx.message.text = false →
      ∀ api : ApiOutcome,
        (handleForwardToAdmins fails api s ctx).2.trace =
          (forwardMediaToAdmins fails s ctx).trace ++
            (if isAIEnabled (registerUser s ctx) (idToString ctx.sender.id) then []
             else [Event.call (Call.reply (js "Your message has been forwarded to our team."))
               (fails (Call.reply
                 (js "Your message has been forwarded to our team."))).isNone]) ∧
        telegramCalls (handleForwardToAdmins fails api s ctx).2.trace =
          telegramCalls (forwardMediaToAdmins fails s ctx).trace ∧
        deliveredCalls (handleForwardToAdmins fails api s ctx).2.trace =
          deliveredCalls (forwardMediaToAdmins fails s ctx).trace ∧
        (fails (Call.reply (js "Your message has been forwarded to our team.")) = none →
          (handleForwardToAdmins fails api s ctx).2.error = none)) := by
  have htargets := forwarding_targets fails s ctx
  refine ⟨⟨(forwardTextToAdmins_run fails s ctx).1, (forwardText_calls fails s ctx).1,
    (forwardText_calls fails s ctx).2⟩,
    ⟨(forwardMediaToAdmins_run fails s ctx).1,
      deliveredCalls_of_recorded fails _ (recorded_forwardMediaToAdmins fails s ctx)⟩,
    ?_, ?_, ?_, ?_, ?_, ?_, ?_, ?_⟩
  · intro sizes fileId h1 hl
    exact (forwardMedia_calls_single fails s ctx _ _ _ fun a => by
      simp [forwardMediaTo, h1, hl]).1
  · intro fileId h1 h2
    exact (forwardMedia_calls_single fails s ctx _ _ _ fun a => by
      simp [forwardMediaTo, h1, h2]).1
  · intro fileId h1 h2 h3
    exact (forwardMedia_calls_single fails s ctx _ _ _ fun a => by
      simp [forwardMediaTo, h1, h2, h3]).1
  · intro fileId h1 h2 h3 h4
    exact (forwardMedia_calls_single fails s ctx _ _ _ fun a => by
      simp [forwardMediaTo, h1, h2, h3, h4]).1
  · intro fileId h1 h2 h3 h4 h5
    exact (forwardMedia_calls_single fails s ctx _ _ _ fun a => by
      simp [forwardMediaTo, h1, h2, h3, h4, h5]).1
  · intro fileId h1 h2 h3 h4 h5 h6
    exact (forwardMedia_calls_sticker fails s ctx fileId fun a => by
      simp [forwardMediaTo, h1, h2, h3, h4, h5, h6]).1
  · intro hm
    exact (htargets.2.1 hm).2
  · intro hadmin htext api
    have hloop := forwardMediaToAdmins_congr fails s (registerUser s ctx) ctx
      (registerUser_admins s ctx)
    have herr := (forwardMediaToAdmins_run fails s ctx).1
    have hrun : (handleForwardToAdmins fails api s ctx).2 =
        (forwardMediaToAdmins fails s ctx).andThen
          (if !isAIEnabled (registerUser s ctx) (idToString ctx.sender.id) then
            perform fails (Call.reply (js "Your message has been forwarded to our team."))
           else Outcome.skip) := by
      unfold handleForwardToAdmins
      simp [hadmin, htext, hloop]
    rw [hrun]
    simp only [Outcome.andThen, herr]
    cases hai : isAIEnabled (registerUser s ctx) (idToString ctx.sender.id)
    · simp [perform, telegramCalls_append, deliveredCalls_append, telegramCalls,
        deliveredCalls]
    · simp [Outcome.skip]

/-- C10, at a concrete input: three admins, every call to the second one throws, and
user `42` sends a photo; all three sends are attempted in list order with the largest
size of the photo and the caption naming the sender, and the first and the third admin
receive it. -/
theorem forwarding_reaches_every_admin_witness :
    (handleForwardToAdmins secondAdminFails transportError threeAdmins photoUpdate).2.error
      = none ∧
    telegramCalls (forwardMediaToAdmins secondAdminFails threeAdmins photoUpdate).trace =
      threeAdmins.admins.map (fun adminId => Call.telegram Api.sendPhoto adminId (js "large")
        (some (mediaCaption (js "Photo") true photoUpdate))) ∧
    telegramCalls
      (handleForwardToAdmins secondAdminFails transportError threeAdmins photoUpdate).2.trace =
      [Call.telegram Api.sendPhoto (js "1") (js "large")
          (some (js "Photo from Bob (@bob):\n\nNo caption\n\nUser ID: 42")),
        Call.telegram Api.sendPhoto (js "2") (js "large")
          (some (js "Photo from Bob (@bob):\n\nNo caption\n\nUser ID: 42")),
        Call.telegram Api.sendPhoto (js "3") (js "large")
          (some (js "Photo from Bob (@bob):\n\nNo caption\n\nUser ID: 42"))] ∧
    deliveredCalls
      (handleForwardToAdmins secondAdminFails transportError threeAdmins photoUpdate).2.trace =
      [Call.telegram Api.sendPhoto (js "1") (js "large")
          (some (js "Photo from Bob (@bob):\n\nNo caption\n\nUser ID: 42")),
        Call.telegram Api.sendPhoto (js "3") (js "large")
          (some (js "Photo from Bob (@bob):\n\nNo caption\n\nUser ID: 42"))] :=
  ⟨((forwarding_reaches_every_admin secondAdminFails threeAdmins photoUpdate).2.2.2.2.2.2.2.2.2
      (by decide) (by decide) transportError).2.2.2 (by decide),
    (forwarding_reaches_every_admin secondAdminFails threeAdmins photoUpdate).2.2.1
      [js "small", js "large"] (js "large") rfl rfl,
    by decide, by decide⟩

/-! ## The AI responder -/

theorem Dict.get_set_self {β : Type} (d : Dict β) (k : JsString) (v : β) :
    Dict.get (Dict.set d k v) k = some v := by
  induction d with
  | nil => simp [Dict.set, Dict.get]
  | cons kv rest ih =>
    obtain ⟨k1, v1⟩ := kv
    by_cases h : k1 = k
    · simp [Dict.set, Dict.get, h]
    · simp [Dict.set, Dict.get, h, ih]

theorem Dict.get_set_other {β : Type} (d : Dict β) (k k2 : JsString) (v : β) (hne : k2 ≠ k) :
    Dict.get (Dict.set d k v) k2 = Dict.get d k2 := by
  induction d with
  | nil => simp [Dict.set, Dict.get, Ne.symm hne]
  | cons kv rest ih =>
    obtain ⟨k1, v1⟩ := kv
    by_cases h : k1 = k
    · have : ¬ k1 = k2 := fun e => hne (e ▸ h)
      simp [Dict.set, Dict.get, h, Ne.symm hne]
    · by_cases h2 : k1 = k2
      · subst h2
        simp [Dict.set, Dict.get, h]
      · simp [Dict.set, Dict.get, h, h2, ih]

theorem historyOf_generateAIResponse (fails : Oracle) (api : ApiOutcome) (s : BotState)
    (ctx : Ctx) :
    historyOf (generateAIResponse fails api s ctx).1 ctx.sender.id =
      (aiTryBlock fails api s ctx
        (historyOf s ctx.sender.id ++ [⟨Role.user, ctx.message.text⟩])).1 := by
  simp [generateAIResponse, historyOf, Dict.get_set_self]

theorem repliesSent_forwardText (fails : Oracle) (s : BotState) (ctx : Ctx) :
    repliesSent (forwardTextToAdmins fails s ctx).trace = [] := by
  rw [(forwardTextToAdmins_run fails s ctx).2, repliesSent_flatMap]
  have h : ∀ adminId : JsString, repliesSent
      (tryCatch (perform fails (Call.telegram Api.sendMessage adminId (forwardText ctx) none))
        fun _ => logged (js "Failed to forward message to admin " ++ adminId ++ js ":")).trace
      = [] := by
    intro adminId
    rw [tryCatch_logged_trace, repliesSent_append]
    simp only [perform]
    split_ifs <;> cases (fails _).isNone <;> simp [repliesSent]
  induction s.admins with
  | nil => rfl
  | cons a rest ih => rw [List.flatMap_cons, h a, ih]; rfl

theorem repliesSent_typing (fails : Oracle) :
    repliesSent (perform fails (Call.replyWithChatAction (js "typing"))).trace = [] := by
  simp only [perform]
  cases (fails _).isNone <;> rfl

theorem repliesSent_aiPrelude (fails : Oracle) (s : BotState) (ctx : Ctx) :
    repliesSent (aiPrelude fails s ctx) = [] := by
  unfold aiPrelude
  rw [repliesSent_append, repliesSent_typing]
  simp [Outcome.detached, repliesSent_forwardText]

theorem aiTryBlock_typing_fails (fails : Oracle) (api : ApiOutcome) (s : BotState) (ctx : Ctx)
    (h1 : List Turn) (e : JsString)
    (ht : fails (Call.replyWithChatAction (js "typing")) = some e) :
    aiTryBlock fails api s ctx h1 = (h1, ⟨aiPrelude fails s ctx, some e⟩) := by
  simp [aiTryBlock, aiPrelude, perform, ht]

theorem aiTryBlock_throws (fails : Oracle) (msg : JsString) (s : BotState) (ctx : Ctx)
    (h1 : List Turn) (ht : fails (Call.replyWithChatAction (js "typing")) = none) :
    aiTryBlock fails (ApiOutcome.throws msg) s ctx h1 =
      (h1, ⟨aiPrelude fails s ctx, some msg⟩) := by
  simp [aiTryBlock, aiPrelude, perform, ht]

theorem aiTryBlock_guard (fails : Oracle) (data : Option ResponseData) (s : BotState)
    (ctx : Ctx) (h1 : List Turn) (ht : fails (Call.replyWithChatAction (js "typing")) = none)
    (hp : responseParts data = none) :
    aiTryBlock fails (ApiOutcome.response data) s ctx h1 =
      (h1, ⟨aiPrelude fails s ctx ++ (perform fails (Call.reply troubleText)).trace,
        (perform fails (Call.reply troubleText)).error⟩) := by
  simp [aiTryBlock, aiPrelude, perform, ht, hp]

theorem aiTryBlock_empty (fails : Oracle) (data : Option ResponseData) (s : BotState)
    (ctx : Ctx) (h1 : List Turn) (ht : fails (Call.replyWithChatAction (js "typing")) = none)
    (hp : responseParts data = some []) :
    aiTryBlock fails (ApiOutcome.response data) s ctx h1 =
      (h1, ⟨aiPrelude fails s ctx, some (js "TypeError")⟩) := by
  simp [aiTryBlock, aiPrelude, perform, ht, hp]

theorem aiTryBlock_text (fails : Oracle) (data : Option ResponseData) (s : BotState)
    (ctx : Ctx) (h1 : List Turn) (p : Part) (rest : List Part) (t : JsString)
    (ht : fails (Call.replyWithChatAction (js "typing")) = none)
    (hp : responseParts data = some (p :: rest)) (htext : p.text = some t) :
    aiTryBlock fails (ApiOutcome.response data) s ctx h1 =
      (if (h1 ++ [Turn.mk Role.model (some t)]).length > 20 then
          sliceLast 20 (h1 ++ [Turn.mk Role.model (some t)])
        else h1 ++ [Turn.mk Role.model (some t)],
        ⟨aiPrelude fails s ctx ++ (sendResponse fails t).trace,
          (sendResponse fails t).error⟩) := by
  simp [aiTryBlock, aiPrelude, perform, ht, hp, htext]

theorem aiTryBlock_failed (fails : Oracle) (api : ApiOutcome) (s : BotState) (ctx : Ctx)
    (h1 : List Turn) (hfail : completionFailed api = true) :
    (∃ e, aiTryBlock fails api s ctx h1 = (h1, ⟨aiPrelude fails s ctx, some e⟩)) ∨
    aiTryBlock fails api s ctx h1 =
      (h1, ⟨aiPrelude fails s ctx ++ (perform fails (Call.reply troubleText)).trace,
        (perform fails (Call.reply troubleText)).error⟩) := by
  rcases Option.eq_none_or_eq_some (fails (Call.replyWithChatAction (js "typing")))
    with ht | ⟨e, ht⟩
  · cases api with
    | throws msg => exact Or.inl ⟨msg, aiTryBlock_throws fails msg s ctx h1 ht⟩
    | response data =>
      unfold completionFailed at hfail
      cases hp : responseParts data with
      | none => exact Or.inr (aiTryBlock_guard fails data s ctx h1 ht hp)
      | some parts =>
        cases parts with
        | nil => exact Or.inl ⟨_, aiTryBlock_empty fails data s ctx h1 ht hp⟩
        | cons p rest => simp [hp] at hfail
  · exact Or.inl ⟨e, aiTryBlock_typing_fails fails api s ctx h1 e ht⟩

theorem generateAIResponse_failed (fails : Oracle) (api : ApiOutcome) (s : BotState)
    (ctx : Ctx) (hfail : completionFailed api = true) :
    (generateAIResponse fails api s ctx).1 =
      { s with chatHistories := (Dict.set s.chatHistories (idToString ctx.sender.id)
          (historyOf s ctx.sender.id ++ [⟨Role.user, ctx.message.text⟩])) } ∧
    historyOf (generateAIResponse fails api s ctx).1 ctx.sender.id =
      historyOf s ctx.sender.id ++ [⟨Role.user, ctx.message.text⟩] ∧
    ((∀ t, fails (Call.reply t) = none) →
      (generateAIResponse fails api s ctx).2.error = none ∧
      (repliesSent (generateAIResponse fails api s ctx).2.trace = [troubleText] ∨
        repliesSent (generateAIResponse fails api s ctx).2.trace = [sorryText])) := by
  have hcases := aiTryBlock_failed fails api s ctx
    (historyOf s ctx.sender.id ++ [⟨Role.user, ctx.message.text⟩]) hfail
  have hhist : (aiTryBlock fails api s ctx
      (historyOf s ctx.sender.id ++ [⟨Role.user, ctx.message.text⟩])).1 =
      historyOf s ctx.sender.id ++ [⟨Role.user, ctx.message.text⟩] := by
    rcases hcases with ⟨e, h⟩ | h <;> rw [h]
  refine ⟨?_, ?_, ?_⟩
  · show BotState.mk _ _ _ _ = _
    exact congrArg (fun h => BotState.mk s.admins s.users s.aiSettings
      (Dict.set s.chatHistories (idToString ctx.sender.id) h)) hhist
  · rw [historyOf_generateAIResponse, hhist]
  · intro hreply
    have hbody : (generateAIResponse fails api s ctx).2 =
        tryCatch (aiTryBlock fails api s ctx
          (historyOf s ctx.sender.id ++ [⟨Role.user, ctx.message.text⟩])).2 fun _ =>
          (logged (js "Error generating AI response:")).andThen
            (perform fails (Call.reply sorryText)) := rfl
    rw [hbody]
    rcases hcases with ⟨e, h⟩ | h
    · rw [h]
      refine ⟨?_, Or.inr ?_⟩
      · simp [tryCatch, Outcome.andThen, logged, perform, hreply]
      · simp [tryCatch, Outcome.andThen, logged, perform, hreply, repliesSent_append,
          repliesSent_aiPrelude, repliesSent]
    · rw [h]
      refine ⟨?_, Or.inl ?_⟩
      · simp [tryCatch, perform, hreply]
      · simp [tryCatch, perform, hreply, repliesSent_append, repliesSent_aiPrelude,
          repliesSent]

/-- C6, as the code has it: when the completion request throws, or its response fails
the guard or has an empty `parts` array, and the history of the sender held fewer than
20 turns, `generateAIResponse` leaves the state as it was except that the turn of the
user is appended to their history, which stays within 20 turns (no model turn is
appended); and when the replies to the sender go through, the sender receives exactly
one message, one of the two apologies. -/
theorem failure_keeps_user_turn (fails : Oracle) (api : ApiOutcome) (s : BotState) (ctx : Ctx)
    (hfail : completionFailed api = true) (hlen : (historyOf s ctx.sender.id).length < 20) :
    (generateAIResponse fails api s ctx).1 =
      { s with chatHistories := (Dict.set s.chatHistories (idToString ctx.sender.id)
          (historyOf s ctx.sender.id ++ [⟨Role.user, ctx.message.text⟩])) } ∧
    historyOf (generateAIResponse fails api s ctx).1 ctx.sender.id =
      historyOf s ctx.sender.id ++ [⟨Role.user, ctx.message.text⟩] ∧
    (historyOf (generateAIResponse fails api s ctx).1 ctx.sender.id).length ≤ 20 ∧
    ((∀ t, fails (Call.reply t) = none) →
      (generateAIResponse fails api s ctx).2.error = none ∧
      (repliesSent (generateAIResponse fails api s ctx).2.trace = [troubleText] ∨
        repliesSent (generateAIResponse fails api s ctx).2.trace = [sorryText])) := by
  obtain ⟨h1, h2, h3⟩ := generateAIResponse_failed fails api s ctx hfail
  refine ⟨h1, h2, ?_, h3⟩
  rw [h2, List.length_append, List.length_singleton]
  omega

/-- C6, at a concrete input: the completion request of the first message of user `42`
throws; the history goes from empty to the single turn of the user, and the sender
receives the apology of the `catch` block. -/
theorem failure_keeps_user_turn_witness :
    historyOf (generateAIResponse noFailure transportError oneAdmin hello).1 42 =
      [⟨Role.user, some (js "hello")⟩] ∧
    repliesSent (generateAIResponse noFailure transportError oneAdmin hello).2.trace =
      [sorryText] :=
  ⟨(failure_keeps_user_turn noFailure transportError oneAdmin hello (by decide)
      (by decide)).2.1,
    (((failure_keeps_user_turn noFailure transportError oneAdmin hello (by decide)
      (by decide)).2.2.2 fun _ => rfl).2).resolve_left (by decide)⟩

/-- C6 as stated fails: after a thrown completion request, and after a malformed
response, the history of user `42` is not what it was before the call (empty): it
holds the turn of the user. -/
theorem failure_changes_history :
    historyOf oneAdmin 42 = [] ∧
    historyOf (generateAIResponse noFailure transportError oneAdmin hello).1 42 =
      [⟨Role.user, some (js "hello")⟩] ∧
    historyOf (generateAIResponse noFailure malformed oneAdmin hello).1 42 =
      [⟨Role.user, some (js "hello")⟩] ∧
    historyOf (generateAIResponse noFailure transportError oneAdmin hello).1 42 ≠
      historyOf oneAdmin 42 := by
  decide

theorem length_truncated_le (l : List Turn) :
    (if l.length > 20 then sliceLast 20 l else l).length ≤ 20 := by
  split_ifs with h
  · simp only [sliceLast, List.length_drop]
    omega
  · omega

theorem aiTryBlock_history_of_parts (fails : Oracle) (data : Option ResponseData)
    (s : BotState) (ctx : Ctx) (h1 : List Turn) (p : Part) (rest : List Part)
    (ht : fails (Call.replyWithChatAction (js "typing")) = none)
    (hp : responseParts data = some (p :: rest)) :
    (aiTryBlock fails (ApiOutcome.response data) s ctx h1).1 =
      if (h1 ++ [Turn.mk Role.model p.text]).length > 20 then
        sliceLast 20 (h1 ++ [Turn.mk Role.model p.text])
      else h1 ++ [Turn.mk Role.model p.text] := by
  unfold aiTryBlock
  simp only [perform, ht, hp]
  cases p.text <;> rfl

theorem history_bounded_after_response (fails : Oracle) (data : Option ResponseData)
    (s : BotState) (ctx : Ctx) (p : Part) (rest : List Part)
    (ht : fails (Call.replyWithChatAction (js "typing")) = none)
    (hp : responseParts data = some (p :: rest)) :
    (historyOf (generateAIResponse fails (ApiOutcome.response data) s ctx).1
      ctx.sender.id).length ≤ 20 := by
  rw [historyOf_generateAIResponse, aiTryBlock_history_of_parts fails data s ctx _ p rest ht hp]
  exact length_truncated_le _

/-- C5 fails on the code: ten well-formed exchanges bring the history of user `42` to
20 turns; the next call, whose completion request throws, leaves 21 turns, and so does
a malformed response; five failing calls in a row leave 25. -/
theorem history_exceeds_20_after_failure :
    (historyOf (generateAIResponses noFailure oneAdmin
      (List.replicate 10 (wellFormed (js "hi"), hello))) 42).length = 20 ∧
    (historyOf (generateAIResponses noFailure oneAdmin
      (List.replicate 10 (wellFormed (js "hi"), hello) ++ [(transportError, hello)])) 42).length
      = 21 ∧
    (historyOf (generateAIResponses noFailure oneAdmin
      (List.replicate 10 (wellFormed (js "hi"), hello) ++ [(malformed, hello)])) 42).length
      = 21 ∧
    (historyOf (generateAIResponses noFailure oneAdmin
      (List.replicate 10 (wellFormed (js "hi"), hello) ++
        List.replicate 5 (transportError, hello))) 42).length = 25 := by
  decide

theorem chunkLoop_run (fails : Oracle) (size : Nat) (s : JsString) (hsize : 0 < size)
    (hreply : ∀ t, fails (Call.reply t) = none) (fuel i : Nat) (hfuel : s.length - i ≤ fuel) :
    (chunkLoop fails size s fuel i).error = none ∧
    (repliesSent (chunkLoop fails size s fuel i).trace).flatten = s.drop i ∧
    (∀ m ∈ repliesSent (chunkLoop fails size s fuel i).trace,
      1 ≤ m.length ∧ m.length ≤ size) ∧
    (∀ k, (repliesSent (chunkLoop fails size s fuel i).trace)[k]? =
      if i + size * k < s.length then some (substring s (i + size * k) (i + size * k + size))
      else none) := by
  induction fuel generalizing i with
  | zero =>
    have hle : s.length ≤ i := by omega
    refine ⟨rfl, ?_, ?_, ?_⟩
    · simp [chunkLoop, Outcome.skip, repliesSent, List.drop_eq_nil_of_le hle]
    · simp [chunkLoop, Outcome.skip, repliesSent]
    · intro k
      have : ¬ i + size * k < s.length := by omega
      simp [chunkLoop, Outcome.skip, repliesSent, this]
  | succ fuel ih =>
    by_cases hi : i < s.length
    · obtain ⟨herr, hflat, hlen, hidx⟩ := ih (i + size) (by omega)
      have hrun : chunkLoop fails size s (fuel + 1) i =
          ⟨Event.call (Call.reply (substring s i (i + size))) true ::
            (chunkLoop fails size s fuel (i + size)).trace,
            (chunkLoop fails size s fuel (i + size)).error⟩ := by
        simp [chunkLoop, hi, perform, Outcome.andThen, hreply]
      rw [hrun]
      have hsub : substring s i (i + size) = (s.drop i).take size := by
        simp [substring]
      refine ⟨herr, ?_, ?_, ?_⟩
      · simp only [repliesSent, List.flatten_cons, hflat, hsub]
        rw [← List.drop_drop, List.take_append_drop]
      · intro m hm
        simp only [repliesSent, List.mem_cons] at hm
        rcases hm with rfl | hm
        · rw [hsub, List.length_take, List.length_drop]
          omega
        · exact hlen m hm
      · intro k
        cases k with
        | zero => simp [repliesSent, hi]
        | succ k =>
          simp only [repliesSent, List.getElem?_cons_succ, hidx k]
          have e : i + size + size * k = i + size * (k + 1) := by ring
          rw [e]
    · have hle : s.length ≤ i := by omega
      refine ⟨?_, ?_, ?_, ?_⟩
      · simp [chunkLoop, hi, Outcome.skip]
      · simp [chunkLoop, hi, Outcome.skip, repliesSent, List.drop_eq_nil_of_le hle]
      · simp [chunkLoop, hi, Outcome.skip, repliesSent]
      · intro k
        have : ¬ i + size * k < s.length := by omega
        simp [chunkLoop, hi, Outcome.skip, repliesSent, this]

/-- C9. When the completion service returns a response whose first part has the text
`t`, and the chat action and the replies to the sender go through, `generateAIResponse`
does not throw and the messages the sender receives are: for `t` longer than 4096
units, the consecutive pieces `t.substring(4096 k, 4096 k + 4096)` for every `k` with
`4096 k < t.length` and nothing else, each of length between 1 and 4096, whose
concatenation in send order is `t`; for `t` of at most 4096 units, the single
message `t`. -/
theorem response_sent_in_chunks (fails : Oracle) (data : Option ResponseData) (s : BotState)
    (ctx : Ctx) (p : Part) (rest : List Part) (t : JsString)
    (hp : responseParts data = some (p :: rest)) (htext : p.text = some t)
    (htyping : fails (Call.replyWithChatAction (js "typing")) = none)
    (hreply : ∀ x, fails (Call.reply x) = none) :
    (generateAIResponse fails (ApiOutcome.response data) s ctx).2.error = none ∧
    (4096 < t.length →
      (repliesSent (generateAIResponse fails (ApiOutcome.response data) s ctx).2.trace).flatten
        = t ∧
      (∀ m ∈ repliesSent (generateAIResponse fails (ApiOutcome.response data) s ctx).2.trace,
        1 ≤ m.length ∧ m.length ≤ 4096) ∧
      (∀ k, (repliesSent
          (generateAIResponse fails (ApiOutcome.response data) s ctx).2.trace)[k]? =
        if 4096 * k < t.length then some (substring t (4096 * k) (4096 * k + 4096))
        else none)) ∧
    (t.length ≤ 4096 →
      repliesSent (generateAIResponse fails (ApiOutcome.response data) s ctx).2.trace = [t]) := by
  have hbody : (generateAIResponse fails (ApiOutcome.response data) s ctx).2 =
      tryCatch (aiTryBlock fails (ApiOutcome.response data) s ctx
        (historyOf s ctx.sender.id ++ [⟨Role.user, ctx.message.text⟩])).2 fun _ =>
        (logged (js "Error generating AI response:")).andThen
          (perform fails (Call.reply sorryText)) := rfl
  rw [hbody, aiTryBlock_text fails data s ctx _ p rest t htyping hp htext]
  by_cases hlong : 4096 < t.length
  · have hloop := chunkLoop_run fails 4096 t (by decide) hreply t.length 0 (by omega)
    have hsend : sendResponse fails t = chunkLoop fails 4096 t t.length 0 := by
      simp [sendResponse, hlong]
    rw [hsend]
    simp only [tryCatch, hloop.1, repliesSent_append, repliesSent_aiPrelude, List.nil_append]
    refine ⟨trivial, fun _ => ⟨by simpa using hloop.2.1, hloop.2.2.1, ?_⟩, fun h => ?_⟩
    · intro k
      simpa using hloop.2.2.2 k
    · omega
  · have hsend : sendResponse fails t = perform fails (Call.reply t) := by
      simp [sendResponse, hlong]
    rw [hsend]
    simp only [tryCatch, perform, hreply, repliesSent_append, repliesSent_aiPrelude,
      List.nil_append]
    exact ⟨trivial, fun h => absurd h hlong, fun _ => by simp [repliesSent]⟩

/-- C9, at a concrete input: a response of 9000 units and a response of two units. -/
theorem response_sent_in_chunks_witness :
    (repliesSent (generateAIResponse noFailure (wellFormed (List.replicate 9000 97))
      oneAdmin hello).2.trace).flatten = List.replicate 9000 97 ∧
    repliesSent (generateAIResponse noFailure (wellFormed (js "hi")) oneAdmin hello).2.trace =
      [js "hi"] :=
  ⟨((response_sent_in_chunks noFailure (wellFormedData (List.replicate 9000 97)) oneAdmin hello
      ⟨some (List.replicate 9000 97)⟩ [] (List.replicate 9000 97) rfl rfl rfl
      (fun _ => rfl)).2.1 (by rw [List.length_replicate]; omega)).1,
    (response_sent_in_chunks noFailure (wellFormedData (js "hi")) oneAdmin hello
      ⟨some (js "hi")⟩ [] (js "hi") rfl rfl rfl (fun _ => rfl)).2.2 (by decide)⟩

/-! ## Reply routing -/

theorem label_length : (js "User ID: ").length = 9 := by decide

theorem matchUserId_sound (t n : JsString) (h : matchUserId t = some n) :
    (∃ pre post, t = pre ++ js "User ID: " ++ n ++ post) ∧ n ≠ [] ∧
    ∀ x ∈ n, isDigit x = true := by
  induction t with
  | nil => simp [matchUserId] at h
  | cons c cs ih =>
    unfold matchUserId at h
    split_ifs at h with hc
    · obtain ⟨hpre, hdig⟩ := hc
      obtain ⟨tl, htl⟩ := List.isPrefixOf_iff_prefix.1 hpre
      have hdrop : (c :: cs).drop 9 = tl := by
        rw [← htl, ← label_length, List.drop_left]
      rw [hdrop] at h hdig
      have hn : n = tl.takeWhile isDigit := (Option.some.inj h).symm
      refine ⟨⟨[], tl.dropWhile isDigit, ?_⟩, ?_, ?_⟩
      · rw [hn, List.nil_append, List.append_assoc, List.takeWhile_append_dropWhile, htl]
      · cases tl with
        | nil => simp at hdig
        | cons d ds =>
          have hd : isDigit d = true := by simpa using hdig
          simp [hn, List.takeWhile, hd]
      · intro x hx
        rw [hn] at hx
        exact List.mem_takeWhile_imp hx
    · obtain ⟨⟨pre, post, e⟩, h2, h3⟩ := ih h
      exact ⟨⟨c :: pre, post, by rw [e]; simp⟩, h2, h3⟩

theorem includes_of_matchUserId (t n : JsString) (h : matchUserId t = some n) :
    includes t (js "User ID:") = true := by
  induction t with
  | nil => simp [matchUserId] at h
  | cons c cs ih =>
    unfold matchUserId at h
    unfold includes
    split_ifs at h with hc
    · obtain ⟨tl, htl⟩ := List.isPrefixOf_iff_prefix.1 hc.1
      have hl : js "User ID: " = js "User ID:" ++ [32] := by decide
      have : (js "User ID:").isPrefixOf (c :: cs) = true :=
        List.isPrefixOf_iff_prefix.2 ⟨[32] ++ tl, by rw [← htl, hl, List.append_assoc]⟩
      simp [this]
    · simp [ih h]

theorem replyTarget_iff (orig : RepliedMessage) (n : JsString) :
    replyTarget orig = some n ↔ ∃ text, orig.text = some text ∧ matchUserId text = some n := by
  constructor
  · intro h
    unfold replyTarget at h
    split_ifs at h with hc
    cases ht : orig.text with
    | none => simp [ht, truthy] at hc
    | some text =>
      refine ⟨text, rfl, ?_⟩
      simp only [ht, Option.getD_some] at h
      split at h
      · rename_i d ds hm
        rw [hm, ← Option.some.inj h]
      · exact absurd h (by simp)
  · rintro ⟨text, ht, hm⟩
    have hs := matchUserId_sound text n hm
    have hinc := includes_of_matchUserId text n hm
    have htext : text ≠ [] := by
      rintro rfl
      simp [matchUserId] at hm
    unfold replyTarget
    obtain ⟨d, ds, hd⟩ := List.exists_cons_of_ne_nil hs.2.1
    obtain ⟨c, cs, hcs⟩ := List.exists_cons_of_ne_nil htext
    simp only [ht, Option.getD_some, hinc, hm, hd]
    simp [hcs, truthy]

theorem filter_isTelegram_chunkLoop (fails : Oracle) (size : Nat) (s : JsString)
    (fuel i : Nat) : (chunkLoop fails size s fuel i).trace.filter isTelegram = [] := by
  induction fuel generalizing i with
  | zero => rfl
  | succ fuel ih =>
    unfold chunkLoop
    split_ifs
    · simp only [Outcome.andThen, perform]
      split
      · simp [isTelegram]
      · simp [isTelegram, ih]
    · rfl

theorem filter_isTelegram_sendResponse (fails : Oracle) (t : JsString) :
    (sendResponse fails t).trace.filter isTelegram = [] := by
  unfold sendResponse
  split_ifs
  · exact filter_isTelegram_chunkLoop _ _ _ _ _
  · simp [perform, isTelegram]

theorem filter_isTelegram_aiTryBlock (fails : Oracle) (api : ApiOutcome) (s : BotState)
    (ctx : Ctx) (h1 : List Turn) :
    (aiTryBlock fails api s ctx h1).2.trace.filter isTelegram =
      (forwardTextToAdmins fails s ctx).trace.filter isTelegram := by
  unfold aiTryBlock
  simp only []
  split
  · simp [perform, Outcome.detached, isTelegram]
  · split
    · simp [perform, Outcome.detached, isTelegram]
    · split
      · simp [perform, Outcome.detached, isTelegram]
      · simp [perform, Outcome.detached, isTelegram]
      · split
        · simp [perform, Outcome.detached, isTelegram]
        · simp [perform, Outcome.detached, isTelegram, filter_isTelegram_sendResponse]

theorem filter_isTelegram_generateAIResponse (fails : Oracle) (api : ApiOutcome) (s : BotState)
    (ctx : Ctx) :
    (generateAIResponse fails api s ctx).2.trace.filter isTelegram =
      (forwardTextToAdmins fails s ctx).trace.filter isTelegram := by
  have hbody : (generateAIResponse fails api s ctx).2 =
      tryCatch (aiTryBlock fails api s ctx
        (historyOf s ctx.sender.id ++ [⟨Role.user, ctx.message.text⟩])).2 fun _ =>
        (logged (js "Error generating AI response:")).andThen
          (perform fails (Call.reply sorryText)) := rfl
  rw [hbody, ← filter_isTelegram_aiTryBlock fails api s ctx
    (historyOf s ctx.sender.id ++ [⟨Role.user, ctx.message.text⟩])]
  unfold tryCatch
  split
  · simp [Outcome.andThen, logged, perform, isTelegram]
  · rfl

theorem telegram_of_forwardText (fails : Oracle) (s : BotState) (ctx : Ctx) (e : Event)
    (he : e ∈ (forwardTextToAdmins fails s ctx).trace) (ht : isTelegram e = true) :
    ∃ adminId ∈ s.admins, ∃ ok,
      e = Event.call (Call.telegram Api.sendMessage adminId (forwardText ctx) none) ok := by
  rw [(forwardTextToAdmins_run fails s ctx).2] at he
  obtain ⟨a, ha, hea⟩ := List.mem_flatMap.1 he
  rw [tryCatch_logged_trace] at hea
  rcases List.mem_append.1 hea with h | h
  · simp only [perform, List.mem_singleton] at h
    exact ⟨a, ha, _, h⟩
  · split_ifs at h
    · rw [List.mem_singleton.1 h] at ht
      simp [isTelegram] at ht
    · simp at h

theorem onText_admin_reply (fails : Oracle) (api : ApiOutcome) (s : BotState) (ctx : Ctx)
    (orig : RepliedMessage) (hadmin : isAdmin s.admins ctx.sender.id = true)
    (hreply : ctx.message.reply_to_message = some orig) :
    (∀ n, replyTarget orig = some n →
      ∃ rest, (onText fails api s ctx).2.trace =
        Event.call (Call.telegram Api.sendMessage n (ctx.message.text.getD (js "undefined")) none)
          (fails (Call.telegram Api.sendMessage n
            (ctx.message.text.getD (js "undefined")) none)).isNone :: rest ∧
        rest.filter isTelegram = []) ∧
    (replyTarget orig = none → (onText fails api s ctx).2.trace.filter isTelegram = []) := by
  constructor
  · intro n hn
    unfold onText
    simp only [hadmin, hreply, hn, perform]
    rcases Option.eq_none_or_eq_some (fails (Call.telegram Api.sendMessage n
      (ctx.message.text.getD (js "undefined")) none)) with hf | ⟨e, hf⟩
    · simp [hf, Outcome.andThen, isTelegram]
    · simp [hf, Outcome.andThen, isTelegram]
  · intro hn
    unfold onText
    simp [hadmin, hreply, hn, perform, isTelegram]

theorem onText_regular (fails : Oracle) (api : ApiOutcome) (s : BotState) (ctx : Ctx)
    (hadmin : isAdmin s.admins ctx.sender.id = false) :
    (onText fails api s ctx).2.trace.filter isTelegram =
      (forwardTextToAdmins fails (registerUser s ctx) ctx).trace.filter isTelegram := by
  unfold onText
  simp only [hadmin]
  split_ifs
  · exact filter_isTelegram_generateAIResponse _ _ _ _
  · simp [Outcome.andThen, Outcome.detached, perform, isTelegram]

theorem attemptedTargets_eq_nil_of_filter {l : List Event} (h : l.filter isTelegram = []) :
    attemptedTargets l = [] := by
  induction l with
  | nil => rfl
  | cons e rest ih =>
    cases e with
    | log msg =>
      simp only [List.filter, isTelegram] at h
      simpa [attemptedTargets] using ih h
    | call c ok =>
      cases c with
      | telegram a n p cap => simp [List.filter, isTelegram] at h
      | reply t =>
        simp only [List.filter, isTelegram] at h
        simpa [attemptedTargets] using ih h
      | replyWithChatAction t =>
        simp only [List.filter, isTelegram] at h
        simpa [attemptedTargets] using ih h

/-- What does hold of the routing in the text handler: every `bot.telegram` call is of
one of two kinds.  Either the sender is an admin, the update replies to a message whose
text contains `User ID: <digits>`, the chat id `n` is the digits of the first match, and
the payload is the text of the admin.  Or the sender is not an admin, the chat id is a
member of the admin list and the payload is the forwarded copy built by
`forwardTextToAdmins`.  An admin reply to a text whose first match is `n` is sent to `n`
and nowhere else, and an admin update that is no reply, or replies to a message without
the pattern, makes no `bot.telegram` call at all. -/
theorem onText_telegram_calls (fails : Oracle) (api : ApiOutcome) (s : BotState)
    (ctx : Ctx) :
    (∀ a n payload caption ok,
      Event.call (Call.telegram a n payload caption) ok ∈ (onText fails api s ctx).2.trace →
      (isAdmin s.admins ctx.sender.id = true ∧
        (∃ orig text, ctx.message.reply_to_message = some orig ∧ orig.text = some text ∧
          matchUserId text = some n ∧ ∃ pre post, text = pre ++ js "User ID: " ++ n ++ post) ∧
        n ≠ [] ∧ (∀ x ∈ n, isDigit x = true) ∧
        a = Api.sendMessage ∧ payload = ctx.message.text.getD (js "undefined")) ∨
      (isAdmin s.admins ctx.sender.id = false ∧ n ∈ s.admins ∧
        a = Api.sendMessage ∧ payload = forwardText ctx)) ∧
    (∀ orig text n, isAdmin s.admins ctx.sender.id = true →
      ctx.message.reply_to_message = some orig → orig.text = some text →
      matchUserId text = some n →
      attemptedTargets (onText fails api s ctx).2.trace = [n] ∧
      (onText fails api s ctx).2.trace.head? =
        some (Event.call
          (Call.telegram Api.sendMessage n (ctx.message.text.getD (js "undefined")) none)
          (fails (Call.telegram Api.sendMessage n
            (ctx.message.text.getD (js "undefined")) none)).isNone)) ∧
    (isAdmin s.admins ctx.sender.id = true →
      (∀ orig text, ctx.message.reply_to_message = some orig → orig.text = some text →
        matchUserId text = none) →
      attemptedTargets (onText fails api s ctx).2.trace = []) := by
  refine ⟨?_, ?_, ?_⟩
  · intro a n payload caption ok hmem
    have hfil : Event.call (Call.telegram a n payload caption) ok ∈
        (onText fails api s ctx).2.trace.filter isTelegram :=
      List.mem_filter.2 ⟨hmem, rfl⟩
    cases hadmin : isAdmin s.admins ctx.sender.id with
    | true =>
      left
      cases hreply : ctx.message.reply_to_message with
      | none =>
        have : (onText fails api s ctx).2.trace = [] := by
          unfold onText
          simp [hadmin, hreply, Outcome.skip]
        rw [this] at hmem
        simp at hmem
      | some orig =>
        have hcase := onText_admin_reply fails api s ctx orig hadmin hreply
        cases htarget : replyTarget orig with
        | none =>
          rw [hcase.2 htarget] at hfil
          simp at hfil
        | some m =>
          obtain ⟨rest, htrace, hrest⟩ := hcase.1 m htarget
          rw [htrace, List.filter_cons_of_pos (by rfl), hrest, List.mem_singleton] at hfil
          injection hfil with hcall hok
          injection hcall with ha hn hp hc
          obtain ⟨text, ht, hm⟩ := (replyTarget_iff orig m).1 htarget
          have hs := matchUserId_sound text m hm
          subst hn
          exact ⟨rfl, ⟨orig, text, rfl, ht, hm, hs.1⟩, hs.2.1, hs.2.2, ha, hp⟩
    | false =>
      right
      rw [onText_regular fails api s ctx hadmin] at hfil
      obtain ⟨hin, _⟩ := List.mem_filter.1 hfil
      obtain ⟨adminId, hmemA, ok2, he⟩ :=
        telegram_of_forwardText fails (registerUser s ctx) ctx _ hin rfl
      injection he with hcall hok
      injection hcall with ha hn hp hc
      rw [registerUser_admins] at hmemA
      exact ⟨rfl, hn ▸ hmemA, ha, hp⟩
  · intro orig text n hadmin hreply ht hm
    have htarget : replyTarget orig = some n := (replyTarget_iff orig n).2 ⟨text, ht, hm⟩
    obtain ⟨rest, htrace, hrest⟩ :=
      (onText_admin_reply fails api s ctx orig hadmin hreply).1 n htarget
    rw [htrace]
    refine ⟨?_, rfl⟩
    show n :: attemptedTargets rest = [n]
    rw [attemptedTargets_eq_nil_of_filter hrest]
  · intro hadmin hnone
    apply attemptedTargets_eq_nil_of_filter
    cases hreply : ctx.message.reply_to_message with
    | none =>
      unfold onText
      simp [hadmin, hreply, Outcome.skip]
    | some orig =>
      apply (onText_admin_reply fails api s ctx orig hadmin hreply).2
      cases htarget : replyTarget orig with
      | none => rfl
      | some m =>
        obtain ⟨text, ht, hm⟩ := (replyTarget_iff orig m).1 htarget
        rw [hnone orig text hreply ht] at hm
        exact absurd hm (by simp)

/-- Admin `1` replies `hi` to the forwarded copy of the `hello` of user `42`, whose
only match is its footer `User ID: 42`; the text goes to chat `42`. -/
theorem onText_routes_reply_to_hello :
    matchUserId (js "User ID: 42") = some (js "42") ∧
    attemptedTargets
      (onText noFailure transportError oneAdminOne (adminReply (js "hi") (forwardText hello))).2.trace
      = [js "42"] :=
  ⟨by decide,
    ((onText_telegram_calls noFailure transportError oneAdminOne
      (adminReply (js "hi") (forwardText hello))).2.1 ⟨some (forwardText hello)⟩
      (forwardText hello) (js "42") (by decide) rfl rfl (by decide)).1⟩

/-! ## The footer of a forwarded copy -/

theorem forwardText_eq (ctx : Ctx) :
    forwardText ctx = forwardBody ctx ++ (js "User ID: " ++ idToString ctx.sender.id) := by
  have h : js "\n\nUser ID: " = js "\n\n" ++ js "User ID: " := by decide
  simp only [forwardText, forwardBody, h, List.append_assoc]

theorem forwardBody_ends_with_newline (ctx : Ctx) : ∃ a, forwardBody ctx = a ++ [10] := by
  have h : js "\n\n" = [10] ++ [10] := by decide
  refine ⟨js "Message from " ++ orElse ctx.sender.first_name (js "Unknown") ++ js " (@" ++
    orElse ctx.sender.username (js "no_username") ++ js "):\n\n" ++
    ctx.message.text.getD (js "undefined") ++ [10], ?_⟩
  simp only [forwardBody, h, List.append_assoc]

theorem matchUserId_label_digits (d : JsString) (hne : d ≠ [])
    (hd : ∀ x ∈ d, isDigit x = true) : matchUserId (js "User ID: " ++ d) = some d := by
  have hl : js "User ID: " = 85 :: [115, 101, 114, 32, 73, 68, 58, 32] := by decide
  have hcons : js "User ID: " ++ d = 85 :: ([115, 101, 114, 32, 73, 68, 58, 32] ++ d) := by
    rw [hl]; rfl
  have hp : (js "User ID: ").isPrefixOf (js "User ID: " ++ d) = true :=
    List.isPrefixOf_iff_prefix.2 (List.prefix_append _ _)
  have hdrop : (js "User ID: " ++ d).drop 9 = d := by
    rw [← label_length, List.drop_left]
  have hhead : d.head?.any isDigit = true := by
    cases d with
    | nil => exact absurd rfl hne
    | cons x xs => simpa using hd x (List.mem_cons_self _ _)
  rw [hcons, matchUserId, ← hcons, hdrop, if_pos ⟨hp, hhead⟩,
    List.takeWhile_eq_self_iff.2 hd]

theorem no_match_in_suffix (a : JsString) (h : matchUserId a = none) :
    ∀ s, s <:+ a → s ≠ [] →
      ¬ ((js "User ID: ").isPrefixOf s = true ∧ (s.drop 9).head?.any isDigit = true) := by
  induction a with
  | nil =>
    intro s hs hne
    exact absurd (List.suffix_nil.1 hs) hne
  | cons c cs ih =>
    rw [matchUserId] at h
    split_ifs at h with hc
    intro s hs hne
    rcases List.suffix_cons_iff.1 hs with e | hs2
    · rw [e]; exact hc
    · exact ih h s hs2 hne

theorem matchUserId_append_of_no_match (a b : JsString)
    (h : ∀ s, s <:+ a → s ≠ [] →
      ¬ ((js "User ID: ").isPrefixOf (s ++ b) = true ∧
        ((s ++ b).drop 9).head?.any isDigit = true)) :
    matchUserId (a ++ b) = matchUserId b := by
  induction a with
  | nil => rfl
  | cons c cs ih =>
    have hc := h (c :: cs) (List.suffix_refl _) (by simp)
    rw [List.cons_append] at hc ⊢
    rw [matchUserId, if_neg hc]
    exact ih fun s hs hne => h s (List.suffix_cons_iff.2 (Or.inr hs)) hne

theorem newline_mem_of_suffix (s t : JsString) (h : s <:+ t ++ [10]) (hne : s ≠ []) :
    10 ∈ s := by
  have hrev := List.reverse_prefix.2 h
  simp only [List.reverse_append, List.reverse_singleton, List.singleton_append] at hrev
  cases hs : s.reverse with
  | nil => exact absurd (List.reverse_eq_nil_iff.1 hs) hne
  | cons x xs =>
    rw [hs] at hrev
    have hx := (List.cons_prefix_cons.1 hrev).1
    have hmem : x ∈ s.reverse := by rw [hs]; exact List.mem_cons_self _ _
    rw [hx] at hmem
    exact List.mem_reverse.1 hmem

theorem matchUserId_skips_clean_body (a b : JsString) (t : JsString) (ha : a = t ++ [10])
    (h : matchUserId a = none) : matchUserId (a ++ b) = matchUserId b := by
  apply matchUserId_append_of_no_match
  rintro s hs hne ⟨hpre, hdig⟩
  obtain ⟨tl, htl⟩ := List.isPrefixOf_iff_prefix.1 hpre
  have hdrop : (s ++ b).drop 9 = tl := by rw [← htl, ← label_length, List.drop_left]
  rw [hdrop] at hdig
  cases tl with
  | nil => simp at hdig
  | cons d tl2 =>
    have hd : isDigit d = true := by simpa using hdig
    have hsplit : s ++ b = (js "User ID: " ++ [d]) ++ tl2 := by
      rw [← htl, List.append_assoc, List.singleton_append]
    have h10 : 10 ∈ s := newline_mem_of_suffix s t (ha ▸ hs) hne
    rcases List.append_eq_append_iff.1 hsplit with ⟨a2, e, _⟩ | ⟨c2, e, _⟩
    · have hmem : (10 : Nat) ∈ js "User ID: " ++ [d] := by
        rw [e]; exact List.mem_append_left _ h10
      rcases List.mem_append.1 hmem with hm | hm
      · exact absurd hm (by decide)
      · rw [List.mem_singleton] at hm
        rw [← hm] at hd
        exact absurd hd (by decide)
    · apply no_match_in_suffix a h s hs hne
      rw [e]
      refine ⟨List.isPrefixOf_iff_prefix.2 ⟨[d] ++ c2, by simp⟩, ?_⟩
      have : (js "User ID: " ++ [d] ++ c2).drop 9 = d :: c2 := by
        rw [List.append_assoc, ← label_length, List.drop_left]; rfl
      rw [this]
      simpa using hd

/-- What does hold of the footer: when the text in front of the footer of the forwarded
copy (the first name, the username and the text of the user with the fixed words around
them) has no match of `/User ID: (\d+)/`, the first match in the copy is the id of the
sender. -/
theorem footer_roundtrip_of_clean_body (ctx : Ctx) (h : matchUserId (forwardBody ctx) = none) :
    matchUserId (forwardText ctx) = some (idToString ctx.sender.id) ∧
    replyTarget ⟨some (forwardText ctx)⟩ = some (idToString ctx.sender.id) := by
  obtain ⟨t, ht⟩ := forwardBody_ends_with_newline ctx
  have hm : matchUserId (forwardText ctx) = some (idToString ctx.sender.id) := by
    rw [forwardText_eq, matchUserId_skips_clean_body _ _ t ht h]
    exact matchUserId_label_digits _ (idToString_ne_nil _) (idToString_digits _)
  exact ⟨hm, (replyTarget_iff _ _).2 ⟨_, rfl, hm⟩⟩

theorem footer_roundtrip_hello :
    matchUserId (forwardText hello) = some (idToString hello.sender.id) :=
  (footer_roundtrip_of_clean_body hello (by decide)).1

/-- C2 fails on the code: user `42` sends the text `User ID: 999`; the first match of
`/User ID: (\d+)/` in the copy forwarded to the admins is `999`, not `42`, and the reply
of an admin to that copy is sent to chat `999`. -/
theorem footer_extraction_misroutes :
    idToString spoof.sender.id = js "42" ∧
    matchUserId (forwardText spoof) = some (js "999") ∧
    replyTarget ⟨some (forwardText spoof)⟩ = some (js "999") ∧
    attemptedTargets
      (onText noFailure transportError oneAdminOne
        (adminReply (js "hi") (forwardText spoof))).2.trace = [js "999"] := by
  decide

/-- C3 fails on the code: admin `1` replies `hi` to a message whose text contains, and
ends with, the footer `User ID: 42` (the forwarded copy of the text `User ID: 999` of
user `42`); the text handler resolves the target `999` and sends the reply there, not
to `42`. -/
theorem footer_42_reply_goes_to_999 :
    isAdmin oneAdminOne.admins (adminReply (js "hi") (forwardText spoof)).sender.id = true ∧
    includes (forwardText spoof) (js "User ID: 42") = true ∧
    (js "\n\nUser ID: 42").isSuffixOf (forwardText spoof) = true ∧
    replyTarget ⟨some (forwardText spoof)⟩ ≠ some (js "42") ∧
    telegramCalls (onText noFailure transportError oneAdminOne
      (adminReply (js "hi") (forwardText spoof))).2.trace =
      [Call.telegram Api.sendMessage (js "999") (js "hi") none] := by
  decide

/-! ## The `/clear` command -/

theorem parseDigits_digitsAux (fuel n : Nat) (acc : List Nat) (h : n < fuel) :
    parseDigits (digitsAux fuel n acc) =
      acc.foldl (fun a d => 10 * a + (d - 48)) n := by
  induction fuel generalizing n acc with
  | zero => omega
  | succ fuel ih =>
    unfold digitsAux
    split_ifs with hn
    · simp [parseDigits]
    · rw [ih (n / 10) _ (by omega)]
      simp only [List.foldl_cons]
      congr 1
      omega

theorem parseDigits_idToString (n : Nat) : parseDigits (idToString n) = n := by
  unfold idToString
  rw [parseDigits_digitsAux (n + 1) n [] (by omega)]
  rfl

theorem idToString_injective {m n : Nat} (h : idToString m = idToString n) : m = n := by
  rw [← parseDigits_idToString m, ← parseDigits_idToString n, h]

theorem Dict.get_erase_self {β : Type} (d : Dict β) (k : JsString) :
    Dict.get (Dict.erase d k) k = none := by
  induction d with
  | nil => rfl
  | cons kv rest ih =>
    obtain ⟨k1, v1⟩ := kv
    by_cases h : k1 = k
    · simpa [Dict.erase, List.filter_cons, h] using ih
    · have ih2 : Dict.get (List.filter (fun kv => !(kv.1 == k)) rest) k = none := ih
      simp [Dict.erase, List.filter_cons, h, Dict.get, ih2]

theorem Dict.get_erase_other {β : Type} (d : Dict β) (k k2 : JsString) (hne : k2 ≠ k) :
    Dict.get (Dict.erase d k) k2 = Dict.get d k2 := by
  induction d with
  | nil => rfl
  | cons kv rest ih =>
    obtain ⟨k1, v1⟩ := kv
    have ih2 : Dict.get (List.filter (fun kv => !(kv.1 == k)) rest) k2 = Dict.get rest k2 := ih
    by_cases h : k1 = k
    · have h2 : ¬ k1 = k2 := fun e => hne (e ▸ h)
      simp [Dict.erase, List.filter_cons, h, Dict.get, ih2, Ne.symm hne]
    · simp [Dict.erase, List.filter_cons, h, Dict.get, ih2]

/-- C11. `/clear` from a user who has a conversation history leaves that user without
a history and replies that it has been cleared; an immediately repeated `/clear`, and a
`/clear` from a user without a history, reply `You have no conversation history to
clear.` and leave the state as it is; the histories of all other users, and the rest
of the state, are untouched. -/
theorem clear_removes_whole_history (fails : Oracle) (s : BotState) (ctx : Ctx) :
    (∀ h, Dict.get s.chatHistories (idToString ctx.sender.id) = some h →
      Dict.get (clear fails s ctx).1.chatHistories (idToString ctx.sender.id) = none ∧
      historyOf (clear fails s ctx).1 ctx.sender.id = [] ∧
      (clear fails s ctx).2 = perform fails
        (Call.reply (js "Your conversation history with the AI has been cleared.")) ∧
      clear fails (clear fails s ctx).1 ctx =
        ((clear fails s ctx).1,
          perform fails (Call.reply (js "You have no conversation history to clear.")))) ∧
    (Dict.get s.chatHistories (idToString ctx.sender.id) = none →
      clear fails s ctx =
        (s, perform fails (Call.reply (js "You have no conversation history to clear.")))) ∧
    (∀ other : Nat, other ≠ ctx.sender.id →
      Dict.get (clear fails s ctx).1.chatHistories (idToString other) =
        Dict.get s.chatHistories (idToString other) ∧
      historyOf (clear fails s ctx).1 other = historyOf s other) ∧
    (clear fails s ctx).1.admins = s.admins ∧ (clear fails s ctx).1.users = s.users ∧
    (clear fails s ctx).1.aiSettings = s.aiSettings := by
  have hnone : ∀ t : BotState, Dict.get t.chatHistories (idToString ctx.sender.id) = none →
      clear fails t ctx =
        (t, perform fails (Call.reply (js "You have no conversation history to clear."))) := by
    intro t ht
    simp [clear, ht]
  have hsome : ∀ h, Dict.get s.chatHistories (idToString ctx.sender.id) = some h →
      clear fails s ctx =
        ({ s with chatHistories := Dict.erase s.chatHistories (idToString ctx.sender.id) },
          perform fails
            (Call.reply (js "Your conversation history with the AI has been cleared."))) := by
    intro h hh
    simp [clear, hh]
  refine ⟨?_, hnone s, ?_, ?_, ?_, ?_⟩
  · intro h hh
    have hgone : Dict.get (clear fails s ctx).1.chatHistories (idToString ctx.sender.id)
        = none := by
      rw [hsome h hh]
      exact Dict.get_erase_self _ _
    refine ⟨hgone, ?_, ?_, hnone _ hgone⟩
    · simp [historyOf, hgone]
    · rw [hsome h hh]
  · intro other hother
    have hkey : idToString other ≠ idToString ctx.sender.id :=
      fun e => hother (idToString_injective e)
    have hget : Dict.get (clear fails s ctx).1.chatHistories (idToString other) =
        Dict.get s.chatHistories (idToString other) := by
      cases hh : Dict.get s.chatHistories (idToString ctx.sender.id) with
      | none => rw [hnone s hh]
      | some h =>
        rw [hsome h hh]
        exact Dict.get_erase_other _ _ _ hkey
    exact ⟨hget, by simp [historyOf, hget]⟩
  · cases hh : Dict.get s.chatHistories (idToString ctx.sender.id) with
    | none => rw [hnone s hh]
    | some h => rw [hsome h hh]
  · cases hh : Dict.get s.chatHistories (idToString ctx.sender.id) with
    | none => rw [hnone s hh]
    | some h => rw [hsome h hh]
  · cases hh : Dict.get s.chatHistories (idToString ctx.sender.id) with
    | none => rw [hnone s hh]
    | some h => rw [hsome h hh]

/-- C11, at a concrete input: user `42`, who has two turns of history, sends `/clear`
twice; user `7` keeps their turn. -/
theorem clear_removes_whole_history_witness :
    historyOf (clear noFailure withHistories hello).1 42 = [] ∧
    repliesSent (clear noFailure withHistories hello).2.trace =
      [js "Your conversation history with the AI has been cleared."] ∧
    clear noFailure (clear noFailure withHistories hello).1 hello =
      ((clear noFailure withHistories hello).1,
        perform noFailure (Call.reply (js "You have no conversation history to clear."))) ∧
    historyOf (clear noFailure withHistories hello).1 7 = [⟨Role.user, some (js "ping")⟩] :=
  ⟨((clear_removes_whole_history noFailure withHistories hello).1
      [⟨Role.user, some (js "hello")⟩, ⟨Role.model, some (js "hi")⟩] (by decide)).2.1,
    by decide,
    ((clear_removes_whole_history noFailure withHistories hello).1
      [⟨Role.user, some (js "hello")⟩, ⟨Role.model, some (js "hi")⟩] (by decide)).2.2.2,
    (((clear_removes_whole_history noFailure withHistories hello).2.2.1 7 (by decide)).2).trans
      (by decide)⟩

/-! ## Admin replies with media -/

theorem handleForwardToAdmins_admin (fails : Oracle) (api : ApiOutcome) (s : BotState)
    (ctx : Ctx) (hadmin : isAdmin s.admins ctx.sender.id = true) :
    handleForwardToAdmins fails api s ctx = (s, Outcome.skip) := by
  simp [handleForwardToAdmins, hadmin]

theorem compose_botOn_miss (hasType : Message → Bool)
    (fn : Oracle → ApiOutcome → BotState → Ctx → BotState × Outcome) (rest : List Middleware)
    (fails : Oracle) (api : ApiOutcome) (s : BotState) (ctx : Ctx)
    (h : hasType ctx.message = false) :
    compose (botOn hasType fn :: rest) fails api s ctx = compose rest fails api s ctx := by
  rw [compose]
  simp [botOn, h, Outcome.skip, Outcome.andThen]

theorem compose_botOn_hit (hasType : Message → Bool)
    (fn : Oracle → ApiOutcome → BotState → Ctx → BotState × Outcome) (rest : List Middleware)
    (fails : Oracle) (api : ApiOutcome) (s : BotState) (ctx : Ctx)
    (h : hasType ctx.message = true) :
    compose (botOn hasType fn :: rest) fails api s ctx = fn fails api s ctx := by
  rw [compose]
  simp [botOn, h]

theorem adminReplyHandler_never_runs (fails : Oracle) (api : ApiOutcome) (s : BotState)
    (ctx : Ctx) :
    handleMediaUpdate fails api s ctx =
      if isMediaKind ctx.message then handleForwardToAdmins fails api s ctx
      else (s, Outcome.skip) := by
  unfold handleMediaUpdate mediaMiddlewares isMediaKind
  cases h1 : ctx.message.photo.isSome
  · rw [compose_botOn_miss _ _ _ _ _ _ _ h1]
    cases h2 : ctx.message.video.isSome
    · rw [compose_botOn_miss _ _ _ _ _ _ _ h2]
      cases h3 : ctx.message.document.isSome
      · rw [compose_botOn_miss _ _ _ _ _ _ _ h3]
        cases h4 : ctx.message.audio.isSome
        · rw [compose_botOn_miss _ _ _ _ _ _ _ h4]
          cases h5 : ctx.message.voice.isSome
          · rw [compose_botOn_miss _ _ _ _ _ _ _ h5]
            cases h6 : ctx.message.sticker.isSome
            · rw [compose_botOn_miss _ _ _ _ _ _ _ h6,
                compose_botOn_miss _ _ _ _ _ _ _ (by simp [h1, h2, h3, h4, h6])]
              simp [compose]
            · rw [compose_botOn_hit _ _ _ _ _ _ _ h6]; simp
          · rw [compose_botOn_hit _ _ _ _ _ _ _ h5]; simp
        · rw [compose_botOn_hit _ _ _ _ _ _ _ h4]; simp
      · rw [compose_botOn_hit _ _ _ _ _ _ _ h3]; simp
    · rw [compose_botOn_hit _ _ _ _ _ _ _ h2]; simp
  · rw [compose_botOn_hit _ _ _ _ _ _ _ h1]; simp

theorem handleMediaUpdate_admin (fails : Oracle) (api : ApiOutcome) (s : BotState) (ctx : Ctx)
    (hadmin : isAdmin s.admins ctx.sender.id = true) :
    handleMediaUpdate fails api s ctx = (s, Outcome.skip) := by
  rw [adminReplyHandler_never_runs, handleForwardToAdmins_admin fails api s ctx hadmin]
  simp

theorem sendMediaTo_shape (fails : Oracle) (ctx : Ctx) (target : JsString)
    (h : isMediaMessage ctx.message = true) :
    ∃ api payload caption,
      sendMediaTo fails ctx target = perform fails (Call.telegram api target payload caption) := by
  unfold sendMediaTo
  simp only []
  split
  · rename_i sizes hphoto
    cases hl : sizes.getLast? with
    | none =>
      have : sizes = [] := by simpa using hl
      simp [isMediaMessage, hphoto, this] at h
    | some fileId => exact ⟨_, _, _, rfl⟩
  · exact ⟨_, _, _, rfl⟩
  · exact ⟨_, _, _, rfl⟩
  · exact ⟨_, _, _, rfl⟩
  · exact ⟨_, _, _, rfl⟩
  · exact ⟨_, _, _, rfl⟩
  · rename_i h1 h2 h3 h4 h5 h6
    simp [isMediaMessage, h1, h2, h3, h4, h5, h6] at h

theorem handleAdminReply_sends (fails : Oracle) (s : BotState) (ctx : Ctx)
    (orig : RepliedMessage) (n : JsString)
    (hadmin : isAdmin s.admins ctx.sender.id = true)
    (hreply : ctx.message.reply_to_message = some orig) (htarget : replyTarget orig = some n)
    (hmedia : isMediaMessage ctx.message = true)
    (hsend : ∀ api payload caption, fails (Call.telegram api n payload caption) = none)
    (hconfirm : fails (Call.reply (js "Media sent to user.")) = none) :
    (handleAdminReply fails s ctx).error = none ∧
    attemptedTargets (handleAdminReply fails s ctx).trace = [n] ∧
    deliveredTargets (handleAdminReply fails s ctx).trace = [n] ∧
    repliesSent (handleAdminReply fails s ctx).trace = [js "Media sent to user."] := by
  obtain ⟨api, payload, caption, hshape⟩ := sendMediaTo_shape fails ctx n hmedia
  unfold handleAdminReply
  simp only [hadmin, hreply, htarget, hshape]
  simp [perform, hsend, hconfirm, Outcome.andThen, attemptedTargets, deliveredTargets,
    repliesSent]

/-- C12 fails on the code: admin `1` sends a photo in reply to the forwarded copy of a
message of user `42`, whose footer resolves to `42`.  The chain of media handlers runs
`handleForwardToAdmins`, which returns at once for an admin and does not call `next()`;
the state is unchanged and nothing is sent or replied.  `handleAdminReply`, had it been
called, would have sent the photo to chat `42` and confirmed. -/
theorem admin_media_reply_is_dropped :
    isAdmin oneAdminOne.admins adminPhotoReply.sender.id = true ∧
    replyTarget ⟨some (forwardText hello)⟩ = some (js "42") ∧
    handleMediaUpdate noFailure transportError oneAdminOne adminPhotoReply =
      (oneAdminOne, Outcome.skip) ∧
    (handleMediaUpdate noFailure transportError oneAdminOne adminPhotoReply).2.trace = [] ∧
    (handleAdminReply noFailure oneAdminOne adminPhotoReply).trace =
      [Event.call (Call.telegram Api.sendPhoto (js "42") (js "large") none) true,
        Event.call (Call.reply (js "Media sent to user.")) true] := by
  decide

/-! ## Text from regular users, and their registration -/

theorem attemptedTargets_filter (l : List Event) :
    attemptedTargets (l.filter isTelegram) = attemptedTargets l := by
  induction l with
  | nil => rfl
  | cons e rest ih =>
    cases e with
    | log msg => simpa [List.filter, isTelegram, attemptedTargets] using ih
    | call c ok =>
      cases c <;> simpa [List.filter, isTelegram, attemptedTargets] using ih

theorem forwardTextToAdmins_congr (fails : Oracle) (s t : BotState) (ctx : Ctx)
    (h : t.admins = s.admins) :
    forwardTextToAdmins fails t ctx = forwardTextToAdmins fails s ctx := by
  unfold forwardTextToAdmins
  rw [h]

theorem registerUser_of_known (s : BotState) (ctx : Ctx) (r : UserRecord)
    (h : Dict.get s.users (idToString ctx.sender.id) = some r) : registerUser s ctx = s := by
  simp [registerUser, h]

theorem registerUser_of_unknown (s : BotState) (ctx : Ctx)
    (h : Dict.get s.users (idToString ctx.sender.id) = none) :
    registerUser s ctx =
      { s with users := Dict.set s.users (idToString ctx.sender.id) (registeredRecord ctx) } := by
  simp [registerUser, h, registeredRecord]

theorem get_registerUser_of_unknown (s : BotState) (ctx : Ctx)
    (h : Dict.get s.users (idToString ctx.sender.id) = none) :
    Dict.get (registerUser s ctx).users (idToString ctx.sender.id) =
      some (registeredRecord ctx) := by
  rw [registerUser_of_unknown s ctx h]
  exact Dict.get_set_self _ _ _

theorem isAIEnabled_registerUser_of_unknown (s : BotState) (ctx : Ctx)
    (h : Dict.get s.users (idToString ctx.sender.id) = none) :
    isAIEnabled (registerUser s ctx) (idToString ctx.sender.id) = true :=
  isAIEnabled_of_override (get_registerUser_of_unknown s ctx h) rfl

theorem registerUser_eq_of_disabled (s : BotState) (ctx : Ctx)
    (h : isAIEnabled (registerUser s ctx) (idToString ctx.sender.id) = false) :
    registerUser s ctx = s := by
  cases hget : Dict.get s.users (idToString ctx.sender.id) with
  | none =>
    rw [isAIEnabled_registerUser_of_unknown s ctx hget] at h
    exact absurd h (by simp)
  | some r => exact registerUser_of_known s ctx r hget

theorem aiTryBlock_history_cases (fails : Oracle) (api : ApiOutcome) (s : BotState) (ctx : Ctx)
    (h1 : List Turn) :
    (aiTryBlock fails api s ctx h1).1 = h1 ∨
    ∃ m, (aiTryBlock fails api s ctx h1).1 =
      if (h1 ++ [m]).length > 20 then sliceLast 20 (h1 ++ [m]) else h1 ++ [m] := by
  rcases Option.eq_none_or_eq_some (fails (Call.replyWithChatAction (js "typing")))
    with ht | ⟨e, ht⟩
  · cases api with
    | throws msg => exact Or.inl (by rw [aiTryBlock_throws fails msg s ctx h1 ht])
    | response data =>
      cases hp : responseParts data with
      | none => exact Or.inl (by rw [aiTryBlock_guard fails data s ctx h1 ht hp])
      | some parts =>
        cases parts with
        | nil => exact Or.inl (by rw [aiTryBlock_empty fails data s ctx h1 ht hp])
        | cons p rest =>
          exact Or.inr ⟨_, aiTryBlock_history_of_parts fails data s ctx h1 p rest ht hp⟩
  · exact Or.inl (by rw [aiTryBlock_typing_fails fails api s ctx h1 e ht])

theorem user_turn_mem_history (fails : Oracle) (api : ApiOutcome) (s : BotState) (ctx : Ctx) :
    Turn.mk Role.user ctx.message.text ∈
      historyOf (generateAIResponse fails api s ctx).1 ctx.sender.id := by
  rw [historyOf_generateAIResponse]
  rcases aiTryBlock_history_cases fails api s ctx
    (historyOf s ctx.sender.id ++ [⟨Role.user, ctx.message.text⟩]) with h | ⟨m, h⟩
  · rw [h]; simp
  · rw [h]
    split_ifs with hlen
    · simp only [sliceLast, List.append_assoc, List.singleton_append]
      have hle : (historyOf s ctx.sender.id ++ [Turn.mk Role.user ctx.message.text] ++
          [m]).length - 20 ≤ (historyOf s ctx.sender.id).length := by
        simp only [List.length_append, List.length_singleton]
        omega
      simp only [List.append_assoc, List.singleton_append] at hle
      rw [List.drop_append_of_le_length hle]
      simp
    · simp

theorem attemptedTargets_generateAIResponse (fails : Oracle) (api : ApiOutcome) (s : BotState)
    (ctx : Ctx) : attemptedTargets (generateAIResponse fails api s ctx).2.trace = s.admins := by
  rw [← attemptedTargets_filter, filter_isTelegram_generateAIResponse, attemptedTargets_filter,
    forwardText_attempted]

theorem telegramCalls_filter (l : List Event) :
    telegramCalls (l.filter isTelegram) = telegramCalls l := by
  induction l with
  | nil => rfl
  | cons e rest ih =>
    cases e with
    | log msg => simpa [List.filter, isTelegram, telegramCalls] using ih
    | call c ok =>
      cases c <;> simpa [List.filter, isTelegram, telegramCalls] using ih

theorem attemptedReplies_forwardText (fails : Oracle) (s : BotState) (ctx : Ctx) :
    attemptedReplies (forwardTextToAdmins fails s ctx).trace = [] := by
  rw [(forwardTextToAdmins_run fails s ctx).2, attemptedReplies_flatMap]
  have h : ∀ adminId : JsString, attemptedReplies
      (tryCatch (perform fails (Call.telegram Api.sendMessage adminId (forwardText ctx) none))
        fun _ => logged (js "Failed to forward message to admin " ++ adminId ++ js ":")).trace
      = [] := by
    intro adminId
    rw [tryCatch_logged_trace, attemptedReplies_append]
    simp only [perform]
    split_ifs <;> simp [attemptedReplies]
  induction s.admins with
  | nil => rfl
  | cons a rest ih => rw [List.flatMap_cons, h a, ih]; rfl

theorem telegramCalls_generateAIResponse (fails : Oracle) (api : ApiOutcome) (s : BotState)
    (ctx : Ctx) :
    telegramCalls (generateAIResponse fails api s ctx).2.trace =
      s.admins.map fun adminId =>
        Call.telegram Api.sendMessage adminId (forwardText ctx) none := by
  rw [← telegramCalls_filter, filter_isTelegram_generateAIResponse, telegramCalls_filter]
  exact (forwardText_calls fails s ctx).1

/-- C13. For a text message from a sender who is not an admin, with `isAIEnabled`
evaluated where the handler evaluates it (after the registration of the sender): when
it is true the update is handled by `generateAIResponse`, whose history then holds the
text as a `user` turn and whose `bot.telegram` calls are those of `forwardTextToAdmins`,
the copy of the text to each admin in list order; when it is false the state is left as
it was, the `bot.telegram` calls are again the copy of the text to each admin in list
order, the only reply attempted is `Your message has been forwarded to our team.`,
which the sender receives when it goes through, and the run does not depend on the
completion service.  Nothing is said of the order between the forwarding, which is not
awaited, and the replies.  A sender who had a record keeps the value `isAIEnabled` had
before the update. -/
theorem text_from_regular_user (fails : Oracle) (api : ApiOutcome) (s : BotState) (ctx : Ctx)
    (hadmin : isAdmin s.admins ctx.sender.id = false) :
    (isAIEnabled (registerUser s ctx) (idToString ctx.sender.id) = true →
      onText fails api s ctx = generateAIResponse fails api (registerUser s ctx) ctx ∧
      Turn.mk Role.user ctx.message.text ∈ historyOf (onText fails api s ctx).1 ctx.sender.id ∧
      telegramCalls (onText fails api s ctx).2.trace =
        s.admins.map (fun adminId =>
          Call.telegram Api.sendMessage adminId (forwardText ctx) none) ∧
      attemptedTargets (onText fails api s ctx).2.trace = s.admins ∧
      (onText fails api s ctx).2.trace.filter isTelegram =
        (forwardTextToAdmins fails s ctx).trace.filter isTelegram) ∧
    (isAIEnabled (registerUser s ctx) (idToString ctx.sender.id) = false →
      (onText fails api s ctx).1 = s ∧
      telegramCalls (onText fails api s ctx).2.trace =
        s.admins.map (fun adminId =>
          Call.telegram Api.sendMessage adminId (forwardText ctx) none) ∧
      deliveredCalls (onText fails api s ctx).2.trace =
        (s.admins.map fun adminId =>
          Call.telegram Api.sendMessage adminId (forwardText ctx) none).filter
          (fun c => (fails c).isNone) ∧
      attemptedReplies (onText fails api s ctx).2.trace =
        [js "Your message has been forwarded to our team."] ∧
      attemptedTargets (onText fails api s ctx).2.trace = s.admins ∧
      (fails (Call.reply (js "Your message has been forwarded to our team.")) = none →
        (onText fails api s ctx).2.error = none ∧
        repliesSent (onText fails api s ctx).2.trace =
          [js "Your message has been forwarded to our team."]) ∧
      ∀ api2, onText fails api2 s ctx = onText fails api s ctx) ∧
    (∀ r, Dict.get s.users (idToString ctx.sender.id) = some r →
      isAIEnabled (registerUser s ctx) (idToString ctx.sender.id) =
        isAIEnabled s (idToString ctx.sender.id)) := by
  have hfwd := forwardTextToAdmins_congr fails s (registerUser s ctx) ctx
    (registerUser_admins s ctx)
  refine ⟨?_, ?_, ?_⟩
  · intro hai
    have hrun : onText fails api s ctx = generateAIResponse fails api (registerUser s ctx) ctx := by
      unfold onText
      simp [hadmin, hai]
    rw [hrun]
    refine ⟨rfl, user_turn_mem_history _ _ _ _, ?_, ?_, ?_⟩
    · rw [telegramCalls_generateAIResponse, registerUser_admins]
    · rw [attemptedTargets_generateAIResponse, registerUser_admins]
    · rw [filter_isTelegram_generateAIResponse, hfwd]
  · intro hai
    have hreg := registerUser_eq_of_disabled s ctx hai
    have hai2 : isAIEnabled s (idToString ctx.sender.id) = false := by rw [← hreg]; exact hai
    have hrun : ∀ api2, onText fails api2 s ctx =
        (s, (forwardTextToAdmins fails s ctx).detached.andThen
          (perform fails (Call.reply (js "Your message has been forwarded to our team.")))) := by
      intro api2
      unfold onText
      simp [hadmin, hreg, hai2]
    have htrace : ((forwardTextToAdmins fails s ctx).detached.andThen
        (perform fails (Call.reply (js "Your message has been forwarded to our team.")))).trace =
        (forwardTextToAdmins fails s ctx).trace ++
          [Event.call (Call.reply (js "Your message has been forwarded to our team."))
            (fails (Call.reply (js "Your message has been forwarded to our team."))).isNone] := by
      simp [Outcome.andThen, Outcome.detached, perform]
    rw [hrun api]
    refine ⟨rfl, ?_, ?_, ?_, ?_, ?_, fun api2 => hrun api2⟩
    · show telegramCalls (Outcome.andThen _ _).trace = _
      rw [htrace, telegramCalls_append, (forwardText_calls fails s ctx).1]
      simp [telegramCalls]
    · show deliveredCalls (Outcome.andThen _ _).trace = _
      rw [htrace, deliveredCalls_append, (forwardText_calls fails s ctx).2]
      cases (fails (Call.reply (js "Your message has been forwarded to our team."))).isNone <;>
        simp [deliveredCalls]
    · show attemptedReplies (Outcome.andThen _ _).trace = _
      rw [htrace, attemptedReplies_append, attemptedReplies_forwardText]
      simp [attemptedReplies]
    · show attemptedTargets (Outcome.andThen _ _).trace = _
      rw [htrace, attemptedTargets_append, forwardText_attempted]
      simp [attemptedTargets]
    · intro hok
      refine ⟨?_, ?_⟩
      · simp [Outcome.andThen, Outcome.detached, perform, hok]
      · show repliesSent (Outcome.andThen _ _).trace = _
        rw [htrace, repliesSent_append, repliesSent_forwardText]
        simp [repliesSent, hok]
  · intro r hr
    rw [registerUser_of_known s ctx r hr]

/-- C13, at a concrete input: the `hello` of user `42` goes to the AI responder in a
state where they have no record, and is forwarded to the three admins and acknowledged
in a state where they have switched the AI off. -/
theorem text_from_regular_user_witness :
    onText noFailure (wellFormed (js "hi")) oneAdminOne hello =
      generateAIResponse noFailure (wellFormed (js "hi")) (registerUser oneAdminOne hello) hello ∧
    (onText noFailure (wellFormed (js "hi")) threeAdmins hello).1 = threeAdmins ∧
    telegramCalls (onText noFailure (wellFormed (js "hi")) threeAdmins hello).2.trace =
      threeAdmins.admins.map (fun adminId =>
        Call.telegram Api.sendMessage adminId (forwardText hello) none) ∧
    repliesSent (onText noFailure (wellFormed (js "hi")) threeAdmins hello).2.trace =
      [js "Your message has been forwarded to our team."] :=
  ⟨((text_from_regular_user noFailure (wellFormed (js "hi")) oneAdminOne hello
      (by decide)).1 (by decide)).1,
    ((text_from_regular_user noFailure (wellFormed (js "hi")) threeAdmins hello
      (by decide)).2.1 (by decide)).1,
    ((text_from_regular_user noFailure (wellFormed (js "hi")) threeAdmins hello
      (by decide)).2.1 (by decide)).2.1,
    (((text_from_regular_user noFailure (wellFormed (js "hi")) threeAdmins hello
      (by decide)).2.1 (by decide)).2.2.2.2.2.1 rfl).2⟩

theorem users_generateAIResponse (fails : Oracle) (api : ApiOutcome) (s : BotState) (ctx : Ctx) :
    (generateAIResponse fails api s ctx).1.users = s.users := rfl

theorem aiSettings_generateAIResponse (fails : Oracle) (api : ApiOutcome) (s : BotState)
    (ctx : Ctx) : (generateAIResponse fails api s ctx).1.aiSettings = s.aiSettings := rfl

theorem users_onText (fails : Oracle) (api : ApiOutcome) (s : BotState) (ctx : Ctx)
    (hadmin : isAdmin s.admins ctx.sender.id = false) :
    (onText fails api s ctx).1.users = (registerUser s ctx).users := by
  unfold onText
  simp only [hadmin]
  split_ifs <;> rfl

theorem users_handleForwardToAdmins (fails : Oracle) (api : ApiOutcome) (s : BotState)
    (ctx : Ctx) (hadmin : isAdmin s.admins ctx.sender.id = false) :
    (handleForwardToAdmins fails api s ctx).1.users = (registerUser s ctx).users := by
  unfold handleForwardToAdmins
  simp only [hadmin]
  simp only [Bool.false_eq_true, if_false]
  split_ifs <;> rfl

theorem users_start (env : Option JsString) (fails : Oracle) (s : BotState) (ctx : Ctx)
    (hadmin : isAdmin s.admins ctx.sender.id = false) :
    (start env fails s ctx).1.users = (registerUser s ctx).users := by
  simp [start, hadmin]

/-- C14. For a sender who is not an admin and has no record, `/start`, the text
handler and `handleForwardToAdmins` each store the record `registeredRecord`, whose
`aiEnabled` is `true`; the first text message of such a sender is handled by
`generateAIResponse` whatever the global flag is, and `isAIEnabled` is true for them
afterwards.  A sender who has a record keeps it as it is.  The global flag is the value
of `isAIEnabled` exactly for the users with no record or with a record lacking
`aiEnabled`: for the others a change of the AI settings changes nothing. -/
theorem router_records_enable_ai (env : Option JsString) (fails : Oracle) (api : ApiOutcome) :
    (∀ (s : BotState) (ctx : Ctx), isAdmin s.admins ctx.sender.id = false →
      Dict.get s.users (idToString ctx.sender.id) = none →
      (registeredRecord ctx).aiEnabled = some true ∧
      Dict.get (start env fails s ctx).1.users (idToString ctx.sender.id) =
        some (registeredRecord ctx) ∧
      Dict.get (onText fails api s ctx).1.users (idToString ctx.sender.id) =
        some (registeredRecord ctx) ∧
      Dict.get (handleForwardToAdmins fails api s ctx).1.users (idToString ctx.sender.id) =
        some (registeredRecord ctx) ∧
      onText fails api s ctx = generateAIResponse fails api (registerUser s ctx) ctx ∧
      Turn.mk Role.user ctx.message.text ∈ historyOf (onText fails api s ctx).1 ctx.sender.id ∧
      isAIEnabled (onText fails api s ctx).1 (idToString ctx.sender.id) = true) ∧
    (∀ (s : BotState) (ctx : Ctx) (r : UserRecord),
      isAdmin s.admins ctx.sender.id = false →
      Dict.get s.users (idToString ctx.sender.id) = some r →
      (start env fails s ctx).1.users = s.users ∧
      (onText fails api s ctx).1.users = s.users ∧
      (handleForwardToAdmins fails api s ctx).1.users = s.users) ∧
    (∀ (s : BotState) (u : JsString) (r : UserRecord) (b : Bool) (g : AISettings),
      Dict.get s.users u = some r → r.aiEnabled = some b →
      isAIEnabled { s with aiSettings := g } u = isAIEnabled s u) ∧
    (∀ (s : BotState) (u : JsString),
      (Dict.get s.users u = none ∨ ∃ r, Dict.get s.users u = some r ∧ r.aiEnabled = none) →
      isAIEnabled s u = s.aiSettings.enabled) := by
  refine ⟨?_, ?_, ?_, ?_⟩
  · intro s ctx hadmin hnew
    have hget := get_registerUser_of_unknown s ctx hnew
    have hai := isAIEnabled_registerUser_of_unknown s ctx hnew
    have hrun : onText fails api s ctx = generateAIResponse fails api (registerUser s ctx) ctx := by
      unfold onText
      simp [hadmin, hai]
    refine ⟨rfl, ?_, ?_, ?_, hrun, ?_, ?_⟩
    · rw [users_start env fails s ctx hadmin]; exact hget
    · rw [users_onText fails api s ctx hadmin]; exact hget
    · rw [users_handleForwardToAdmins fails api s ctx hadmin]; exact hget
    · rw [hrun]; exact user_turn_mem_history _ _ _ _
    · exact isAIEnabled_of_override
        (by rw [users_onText fails api s ctx hadmin]; exact hget) rfl
  · intro s ctx r hadmin hr
    have hreg := registerUser_of_known s ctx r hr
    refine ⟨?_, ?_, ?_⟩
    · rw [users_start env fails s ctx hadmin, hreg]
    · rw [users_onText fails api s ctx hadmin, hreg]
    · rw [users_handleForwardToAdmins fails api s ctx hadmin, hreg]
  · intro s u r b g hr hb
    rw [isAIEnabled_of_override hr hb]
    simp [isAIEnabled, hr, hb]
  · intro s u h
    rcases h with h | ⟨r, hr, hn⟩
    · simp [isAIEnabled, h]
    · simp [isAIEnabled, hr, hn]

/-- C14, at a concrete input: the global flag is off and user `42`, who has no record,
sends `hello`; the update goes to the AI responder, which answers `hi`. -/
theorem router_records_enable_ai_witness :
    globalOff.aiSettings.enabled = false ∧
    isAIEnabled globalOff (js "42") = false ∧
    onText noFailure (wellFormed (js "hi")) globalOff hello =
      generateAIResponse noFailure (wellFormed (js "hi")) (registerUser globalOff hello) hello ∧
    isAIEnabled (onText noFailure (wellFormed (js "hi")) globalOff hello).1 (js "42") = true ∧
    repliesSent (onText noFailure (wellFormed (js "hi")) globalOff hello).2.trace = [js "hi"] :=
  ⟨by decide, by decide,
    ((router_records_enable_ai none noFailure (wellFormed (js "hi"))).1 globalOff hello
      (by decide) (by decide)).2.2.2.2.1,
    ((router_records_enable_ai none noFailure (wellFormed (js "hi"))).1 globalOff hello
      (by decide) (by decide)).2.2.2.2.2.2,
    by decide⟩

end InboxBot
